import Mathlib

/-!
Shallow embedding of the NES emulator core of the `childhood` repository
(packages `mgnes` and `mgnes/pkg/...`): the 6502 CPU model
(`go/mgnes/instruction.go`, `go/mgnes/mg6502.go`, opcode semantics from
`go/mgnes/pkg/mg6502/instruction.go`, opcode table from
`go/mgnes/optable.go`), the system bus (`package bus` in
`go/mgnes/pkg/mg6502/instruction.go`), the iNES header parser
(`package ines`), the cartridge loader (`package cartridge`) and the
reference mapper (`go/mgnes/pkg/mappers/mapper_000.go`).

Go fixed-width integers are embedded as `Nat` with explicit reductions:
a `uint8` value is kept below 256 with `% 256`, a `uint16` below 65536
with `% 65536`, exactly at the points where the Go code truncates.
-/

namespace mgnes

/-- Truncation to a Go `uint8` value. -/
def u8 (n : Nat) : Nat := n % 256

/-- Truncation to a Go `uint16` value. -/
def u16 (n : Nat) : Nat := n % 65536

/-- Go `uint8` decrement (`x--`), wrapping at zero. -/
def dec8 (n : Nat) : Nat := (n + 255) % 256

/-- Go `uint8` increment (`x++`). -/
def inc8 (n : Nat) : Nat := (n + 1) % 256

/-- Go `uint16` increment (`x++`). -/
def inc16 (n : Nat) : Nat := (n + 1) % 65536

-- Status flag bit masks, from go/mgnes/mg6502.go.
def FlagNegative : Nat := 0x80
def FlagOverflow : Nat := 0x40
def FlagUnused : Nat := 0x20
def FlagBreak : Nat := 0x10
def FlagDecimal : Nat := 0x08
def FlagInterrupt : Nat := 0x04
def FlagZero : Nat := 0x02
def FlagCarry : Nat := 0x01

/-- The twelve addressing modes of the instruction table (the `am`
function-pointer column of `optable.go`, identified by tag as in the
`AddrMode...` constants of mg6502.go). -/
inductive AddrMode where
  | IMP | IMM | ZP0 | ZPX | ZPY | REL
  | ABS | ABX | ABY | IND | IZX | IZY
  deriving DecidableEq, Repr

/-- The operation column of `optable.go`, one tag per distinct `op...`
function of go/mgnes/pkg/mg6502/instruction.go. -/
inductive Op where
  | ADC | AND | ASL | BCC | BCS | BEQ | BIT | BMI | BNE | BPL | BRK
  | BVC | BVS | CLC | CLD | CLI | CLV | CMP | CPX | CPY | DEC | DEX
  | DEY | EOR | INC | INX | INY | JMP | JSR | LDA | LDX | LDY | LSR
  | NOP | ORA | PHA | PHP | PLA | PLP | ROL | ROR | RTI | RTS | SBC
  | SEC | SED | SEI | STA | STX | STY | TAX | TAY | TSX | TXA | TXS
  | TYA | XXX
  deriving DecidableEq, Repr

/-- One row of the opcode lookup table (struct `Instruction`). -/
structure Instruction where
  name : String
  op : Op
  am : AddrMode
  cycles : Nat
  deriving DecidableEq, Repr

/-- CPU register file and assistive variables (struct `MG6502` of
go/mgnes/mg6502.go). The instruction lookup table is a fixed global
here, so it is not a field. -/
structure MG6502 where
  A : Nat
  X : Nat
  Y : Nat
  SP : Nat
  PC : Nat
  FLAG : Nat
  fetched : Nat
  temp : Nat
  addrAbs : Nat
  addrRel : Nat
  opcode : Nat
  cycles : Nat
  clockCount : Nat
  deriving DecidableEq, Repr

/-- The machine visible to the CPU: the register file plus the memory
image behind the bus, modelled as a flat function from 16-bit addresses
to bytes. -/
structure Machine where
  cpu : MG6502
  mem : Nat → Nat

/-- `cpu.read`: an 8-bit read from the bus at a 16-bit address. -/
def read (m : Machine) (addr : Nat) : Nat := u8 (m.mem (u16 addr))

/-- `cpu.write`: an 8-bit write to the bus at a 16-bit address. -/
def write (m : Machine) (addr data : Nat) : Machine :=
  { m with mem := fun a => if a = u16 addr then u8 data else m.mem a }

/-- `cpu.read16`: low byte first, then high byte from the next address. -/
def read16 (m : Machine) (addr : Nat) : Nat :=
  (read m (addr + 1)) <<< 8 ||| read m addr

/-- `cpu.GetFlag`. -/
def getFlag (cpu : MG6502) (flag : Nat) : Nat :=
  if cpu.FLAG &&& flag > 0 then 1 else 0

/-- `cpu.SetFlag`; clearing uses the Go `&^` operator on a `uint8`. -/
def setFlag (cpu : MG6502) (flag : Nat) (v : Bool) : MG6502 :=
  if v then { cpu with FLAG := cpu.FLAG ||| flag }
  else { cpu with FLAG := cpu.FLAG &&& (255 ^^^ flag) }

/-- `cpu.push`: write at 0x0100+SP, then decrement SP. -/
def push (m : Machine) (data : Nat) : Machine :=
  let m1 := write m (0x0100 + m.cpu.SP) data
  { m1 with cpu := { m1.cpu with SP := dec8 m1.cpu.SP } }

/-- `cpu.pop`: increment SP, then read at 0x0100+SP. -/
def pop (m : Machine) : Machine × Nat :=
  let sp := inc8 m.cpu.SP
  ({ m with cpu := { m.cpu with SP := sp } }, read m (0x0100 + sp))

/-- `cpu.pushPC`: high byte then low byte. -/
def pushPC (m : Machine) : Machine :=
  let m1 := push m ((m.cpu.PC >>> 8) &&& 0x00FF)
  push m1 (m1.cpu.PC &&& 0x00FF)

/-- `cpu.popPC`: SP++, 16-bit read at 0x0100+SP, SP++ again. -/
def popPC (m : Machine) : Machine :=
  let sp := inc8 m.cpu.SP
  let pc := read16 m (0x0100 + sp)
  { m with cpu := { m.cpu with SP := inc8 sp, PC := pc } }

-- ===========================================================================
-- Addressing modes, from go/mgnes/pkg/mg6502/instruction.go (the same
-- function bodies appear in go/mgnes/instruction.go). Each returns the
-- updated machine and the extra-cycle adjustment it reports.

/-- Address mode Implied: target the accumulator. -/
def amIMP (m : Machine) : Machine × Nat :=
  ({ m with cpu := { m.cpu with fetched := m.cpu.A } }, 0)

/-- Address mode Immediate: the operand is the next byte. -/
def amIMM (m : Machine) : Machine × Nat :=
  ({ m with cpu := { m.cpu with addrAbs := m.cpu.PC, PC := inc16 m.cpu.PC } }, 0)

/-- Address mode Zero Page. -/
def amZP0 (m : Machine) : Machine × Nat :=
  let a := read m m.cpu.PC
  ({ m with cpu := { m.cpu with addrAbs := a &&& 0x00FF, PC := inc16 m.cpu.PC } }, 0)

/-- Address mode Zero Page with X offset: the single-byte base and X are
added as `uint8`, wrapping inside the first page. -/
def amZPX (m : Machine) : Machine × Nat :=
  let a := u8 (read m m.cpu.PC + m.cpu.X)
  ({ m with cpu := { m.cpu with addrAbs := a &&& 0x00FF, PC := inc16 m.cpu.PC } }, 0)

/-- Address mode Zero Page with Y offset. -/
def amZPY (m : Machine) : Machine × Nat :=
  let a := u8 (read m m.cpu.PC + m.cpu.Y)
  ({ m with cpu := { m.cpu with addrAbs := a &&& 0x00FF, PC := inc16 m.cpu.PC } }, 0)

/-- Address mode Relative: sign-extend the 8-bit branch offset into the
16-bit `addrRel`. -/
def amREL (m : Machine) : Machine × Nat :=
  let r := read m m.cpu.PC
  let r1 := if r &&& 0x80 > 0 then r ||| 0xFF00 else r
  ({ m with cpu := { m.cpu with addrRel := r1, PC := inc16 m.cpu.PC } }, 0)

/-- Address mode Absolute. -/
def amABS (m : Machine) : Machine × Nat :=
  let a := read16 m m.cpu.PC
  ({ m with cpu := { m.cpu with addrAbs := a, PC := u16 (m.cpu.PC + 2) } }, 0)

/-- Address mode Absolute with X offset: loads the two-byte base into
`addrAbs`, adds X, and reports the extra cycle when the page changed. -/
def amABX (m : Machine) : Machine × Nat :=
  let addr := read16 m m.cpu.PC
  let abs := u16 (addr + m.cpu.X)
  ({ m with cpu := { m.cpu with addrAbs := abs, PC := u16 (m.cpu.PC + 2) } },
    if abs &&& 0xFF00 ≠ addr &&& 0xFF00 then 1 else 0)

/-- Address mode Absolute with Y offset, as written in the source: the
two-byte base `addr` is read and PC advanced, but Y is added to the
PREVIOUS content of `addrAbs` (the source never assigns `addr` to
`addrAbs`), and the page comparison is made against `addr`. -/
def amABY (m : Machine) : Machine × Nat :=
  let addr := read16 m m.cpu.PC
  let abs := u16 (m.cpu.addrAbs + m.cpu.Y)
  ({ m with cpu := { m.cpu with addrAbs := abs, PC := u16 (m.cpu.PC + 2) } },
    if abs &&& 0xFF00 ≠ addr &&& 0xFF00 then 1 else 0)

/-- Address mode Indirect, reproducing the hardware page-wrap defect:
when the low pointer byte is 0xFF the high byte of the effective address
is read from the start of the same page. -/
def amIND (m : Machine) : Machine × Nat :=
  let ptrLo := read m m.cpu.PC
  let ptrHi := read m (m.cpu.PC + 1)
  let ptr := (ptrHi <<< 8) ||| ptrLo
  let abs :=
    if ptrLo = 0x00FF then
      (read m (ptr &&& 0xFF00)) <<< 8 ||| read m (ptr + 0)
    else
      (read m (ptr + 1)) <<< 8 ||| read m (ptr + 0)
  ({ m with cpu := { m.cpu with addrAbs := abs, PC := u16 (m.cpu.PC + 2) } }, 0)

/-- Address mode Indirect X: pointer lookup confined to the zero page. -/
def amIZX (m : Machine) : Machine × Nat :=
  let t := read m m.cpu.PC
  let lo := read m ((t + m.cpu.X) &&& 0x00FF)
  let hi := read m ((t + m.cpu.X + 1) &&& 0x00FF)
  ({ m with cpu := { m.cpu with addrAbs := (hi <<< 8) ||| lo, PC := inc16 m.cpu.PC } }, 0)

/-- Address mode Indirect Y: Y indexes the looked-up pointer, with the
page-crossing extra-cycle rule. -/
def amIZY (m : Machine) : Machine × Nat :=
  let t := read m m.cpu.PC
  let lo := read m (t &&& 0x00FF)
  let hi := read m ((t + 1) &&& 0x00FF)
  let abs := u16 (((hi <<< 8) ||| lo) + m.cpu.Y)
  ({ m with cpu := { m.cpu with addrAbs := abs, PC := inc16 m.cpu.PC } },
    if abs &&& 0xFF00 ≠ hi <<< 8 then 1 else 0)

/-- Dispatch of the addressing-mode column. -/
def amRun : AddrMode → Machine → Machine × Nat
  | .IMP => amIMP
  | .IMM => amIMM
  | .ZP0 => amZP0
  | .ZPX => amZPX
  | .ZPY => amZPY
  | .REL => amREL
  | .ABS => amABS
  | .ABX => amABX
  | .ABY => amABY
  | .IND => amIND
  | .IZX => amIZX
  | .IZY => amIZY

-- ===========================================================================
-- The 256-entry opcode lookup table, row by row from newInstructionSet in
-- go/mgnes/optable.go.

/-- Opcode table row 0x00 to 0x0F of `newInstructionSet`. -/
def instrRow0 : List Instruction := [
  ⟨"BRK", .BRK, .IMM, 7⟩, ⟨"ORA", .ORA, .IZX, 6⟩, ⟨"???", .XXX, .IMP, 2⟩, ⟨"???", .XXX, .IMP, 8⟩,
  ⟨"???", .NOP, .IMP, 3⟩, ⟨"ORA", .ORA, .ZP0, 3⟩, ⟨"ASL", .ASL, .ZP0, 5⟩, ⟨"???", .XXX, .IMP, 5⟩,
  ⟨"PHP", .PHP, .IMP, 3⟩, ⟨"ORA", .ORA, .IMM, 2⟩, ⟨"ASL", .ASL, .IMP, 2⟩, ⟨"???", .XXX, .IMP, 2⟩,
  ⟨"???", .NOP, .IMP, 4⟩, ⟨"ORA", .ORA, .ABS, 4⟩, ⟨"ASL", .ASL, .ABS, 6⟩, ⟨"???", .XXX, .IMP, 6⟩]

/-- Opcode table row 0x10 to 0x1F of `newInstructionSet`. -/
def instrRow1 : List Instruction := [
  ⟨"BPL", .BPL, .REL, 2⟩, ⟨"ORA", .ORA, .IZY, 5⟩, ⟨"???", .XXX, .IMP, 2⟩, ⟨"???", .XXX, .IMP, 8⟩,
  ⟨"???", .NOP, .IMP, 4⟩, ⟨"ORA", .ORA, .ZPX, 4⟩, ⟨"ASL", .ASL, .ZPX, 6⟩, ⟨"???", .XXX, .IMP, 6⟩,
  ⟨"CLC", .CLC, .IMP, 2⟩, ⟨"ORA", .ORA, .ABY, 4⟩, ⟨"???", .NOP, .IMP, 2⟩, ⟨"???", .XXX, .IMP, 7⟩,
  ⟨"???", .NOP, .IMP, 4⟩, ⟨"ORA", .ORA, .ABX, 4⟩, ⟨"ASL", .ASL, .ABX, 7⟩, ⟨"???", .XXX, .IMP, 7⟩]

/-- Opcode table row 0x20 to 0x2F of `newInstructionSet`. -/
def instrRow2 : List Instruction := [
  ⟨"JSR", .JSR, .ABS, 6⟩, ⟨"AND", .AND, .IZX, 6⟩, ⟨"???", .XXX, .IMP, 2⟩, ⟨"???", .XXX, .IMP, 8⟩,
  ⟨"BIT", .BIT, .ZP0, 3⟩, ⟨"AND", .AND, .ZP0, 3⟩, ⟨"ROL", .ROL, .ZP0, 5⟩, ⟨"???", .XXX, .IMP, 5⟩,
  ⟨"PLP", .PLP, .IMP, 4⟩, ⟨"AND", .AND, .IMM, 2⟩, ⟨"ROL", .ROL, .IMP, 2⟩, ⟨"???", .XXX, .IMP, 2⟩,
  ⟨"BIT", .BIT, .ABS, 4⟩, ⟨"AND", .AND, .ABS, 4⟩, ⟨"ROL", .ROL, .ABS, 6⟩, ⟨"???", .XXX, .IMP, 6⟩]

/-- Opcode table row 0x30 to 0x3F of `newInstructionSet`. -/
def instrRow3 : List Instruction := [
  ⟨"BMI", .BMI, .REL, 2⟩, ⟨"AND", .AND, .IZY, 5⟩, ⟨"???", .XXX, .IMP, 2⟩, ⟨"???", .XXX, .IMP, 8⟩,
  ⟨"???", .NOP, .IMP, 4⟩, ⟨"AND", .AND, .ZPX, 4⟩, ⟨"ROL", .ROL, .ZPX, 6⟩, ⟨"???", .XXX, .IMP, 6⟩,
  ⟨"SEC", .SEC, .IMP, 2⟩, ⟨"AND", .AND, .ABY, 4⟩, ⟨"???", .NOP, .IMP, 2⟩, ⟨"???", .XXX, .IMP, 7⟩,
  ⟨"???", .NOP, .IMP, 4⟩, ⟨"AND", .AND, .ABX, 4⟩, ⟨"ROL", .ROL, .ABX, 7⟩, ⟨"???", .XXX, .IMP, 7⟩]

/-- Opcode table row 0x40 to 0x4F of `newInstructionSet`. -/
def instrRow4 : List Instruction := [
  ⟨"RTI", .RTI, .IMP, 6⟩, ⟨"EOR", .EOR, .IZX, 6⟩, ⟨"???", .XXX, .IMP, 2⟩, ⟨"???", .XXX, .IMP, 8⟩,
  ⟨"???", .NOP, .IMP, 3⟩, ⟨"EOR", .EOR, .ZP0, 3⟩, ⟨"LSR", .LSR, .ZP0, 5⟩, ⟨"???", .XXX, .IMP, 5⟩,
  ⟨"PHA", .PHA, .IMP, 3⟩, ⟨"EOR", .EOR, .IMM, 2⟩, ⟨"LSR", .LSR, .IMP, 2⟩, ⟨"???", .XXX, .IMP, 2⟩,
  ⟨"JMP", .JMP, .ABS, 3⟩, ⟨"EOR", .EOR, .ABS, 4⟩, ⟨"LSR", .LSR, .ABS, 6⟩, ⟨"???", .XXX, .IMP, 6⟩]

/-- Opcode table row 0x50 to 0x5F of `newInstructionSet`. -/
def instrRow5 : List Instruction := [
  ⟨"BVC", .BVC, .REL, 2⟩, ⟨"EOR", .EOR, .IZY, 5⟩, ⟨"???", .XXX, .IMP, 2⟩, ⟨"???", .XXX, .IMP, 8⟩,
  ⟨"???", .NOP, .IMP, 4⟩, ⟨"EOR", .EOR, .ZPX, 4⟩, ⟨"LSR", .LSR, .ZPX, 6⟩, ⟨"???", .XXX, .IMP, 6⟩,
  ⟨"CLI", .CLI, .IMP, 2⟩, ⟨"EOR", .EOR, .ABY, 4⟩, ⟨"???", .NOP, .IMP, 2⟩, ⟨"???", .XXX, .IMP, 7⟩,
  ⟨"???", .NOP, .IMP, 4⟩, ⟨"EOR", .EOR, .ABX, 4⟩, ⟨"LSR", .LSR, .ABX, 7⟩, ⟨"???", .XXX, .IMP, 7⟩]

/-- Opcode table row 0x60 to 0x6F of `newInstructionSet`. -/
def instrRow6 : List Instruction := [
  ⟨"RTS", .RTS, .IMP, 6⟩, ⟨"ADC", .ADC, .IZX, 6⟩, ⟨"???", .XXX, .IMP, 2⟩, ⟨"???", .XXX, .IMP, 8⟩,
  ⟨"???", .NOP, .IMP, 3⟩, ⟨"ADC", .ADC, .ZP0, 3⟩, ⟨"ROR", .ROR, .ZP0, 5⟩, ⟨"???", .XXX, .IMP, 5⟩,
  ⟨"PLA", .PLA, .IMP, 4⟩, ⟨"ADC", .ADC, .IMM, 2⟩, ⟨"ROR", .ROR, .IMP, 2⟩, ⟨"???", .XXX, .IMP, 2⟩,
  ⟨"JMP", .JMP, .IND, 5⟩, ⟨"ADC", .ADC, .ABS, 4⟩, ⟨"ROR", .ROR, .ABS, 6⟩, ⟨"???", .XXX, .IMP, 6⟩]

/-- Opcode table row 0x70 to 0x7F of `newInstructionSet`. -/
def instrRow7 : List Instruction := [
  ⟨"BVS", .BVS, .REL, 2⟩, ⟨"ADC", .ADC, .IZY, 5⟩, ⟨"???", .XXX, .IMP, 2⟩, ⟨"???", .XXX, .IMP, 8⟩,
  ⟨"???", .NOP, .IMP, 4⟩, ⟨"ADC", .ADC, .ZPX, 4⟩, ⟨"ROR", .ROR, .ZPX, 6⟩, ⟨"???", .XXX, .IMP, 6⟩,
  ⟨"SEI", .SEI, .IMP, 2⟩, ⟨"ADC", .ADC, .ABY, 4⟩, ⟨"???", .NOP, .IMP, 2⟩, ⟨"???", .XXX, .IMP, 7⟩,
  ⟨"???", .NOP, .IMP, 4⟩, ⟨"ADC", .ADC, .ABX, 4⟩, ⟨"ROR", .ROR, .ABX, 7⟩, ⟨"???", .XXX, .IMP, 7⟩]

/-- Opcode table row 0x80 to 0x8F of `newInstructionSet`. -/
def instrRow8 : List Instruction := [
  ⟨"???", .NOP, .IMP, 2⟩, ⟨"STA", .STA, .IZX, 6⟩, ⟨"???", .NOP, .IMP, 2⟩, ⟨"???", .XXX, .IMP, 6⟩,
  ⟨"STY", .STY, .ZP0, 3⟩, ⟨"STA", .STA, .ZP0, 3⟩, ⟨"STX", .STX, .ZP0, 3⟩, ⟨"???", .XXX, .IMP, 3⟩,
  ⟨"DEY", .DEY, .IMP, 2⟩, ⟨"???", .NOP, .IMP, 2⟩, ⟨"TXA", .TXA, .IMP, 2⟩, ⟨"???", .XXX, .IMP, 2⟩,
  ⟨"STY", .STY, .ABS, 4⟩, ⟨"STA", .STA, .ABS, 4⟩, ⟨"STX", .STX, .ABS, 4⟩, ⟨"???", .XXX, .IMP, 4⟩]

/-- Opcode table row 0x90 to 0x9F of `newInstructionSet`. -/
def instrRow9 : List Instruction := [
  ⟨"BCC", .BCC, .REL, 2⟩, ⟨"STA", .STA, .IZY, 6⟩, ⟨"???", .XXX, .IMP, 2⟩, ⟨"???", .XXX, .IMP, 6⟩,
  ⟨"STY", .STY, .ZPX, 4⟩, ⟨"STA", .STA, .ZPX, 4⟩, ⟨"STX", .STX, .ZPY, 4⟩, ⟨"???", .XXX, .IMP, 4⟩,
  ⟨"TYA", .TYA, .IMP, 2⟩, ⟨"STA", .STA, .ABY, 5⟩, ⟨"TXS", .TXS, .IMP, 2⟩, ⟨"???", .XXX, .IMP, 5⟩,
  ⟨"???", .NOP, .IMP, 5⟩, ⟨"STA", .STA, .ABX, 5⟩, ⟨"???", .XXX, .IMP, 5⟩, ⟨"???", .XXX, .IMP, 5⟩]

/-- Opcode table row 0xA0 to 0xAF of `newInstructionSet`. -/
def instrRow10 : List Instruction := [
  ⟨"LDY", .LDY, .IMM, 2⟩, ⟨"LDA", .LDA, .IZX, 6⟩, ⟨"LDX", .LDX, .IMM, 2⟩, ⟨"???", .XXX, .IMP, 6⟩,
  ⟨"LDY", .LDY, .ZP0, 3⟩, ⟨"LDA", .LDA, .ZP0, 3⟩, ⟨"LDX", .LDX, .ZP0, 3⟩, ⟨"???", .XXX, .IMP, 3⟩,
  ⟨"TAY", .TAY, .IMP, 2⟩, ⟨"LDA", .LDA, .IMM, 2⟩, ⟨"TAX", .TAX, .IMP, 2⟩, ⟨"???", .XXX, .IMP, 2⟩,
  ⟨"LDY", .LDY, .ABS, 4⟩, ⟨"LDA", .LDA, .ABS, 4⟩, ⟨"LDX", .LDX, .ABS, 4⟩, ⟨"???", .XXX, .IMP, 4⟩]

/-- Opcode table row 0xB0 to 0xBF of `newInstructionSet`. -/
def instrRow11 : List Instruction := [
  ⟨"BCS", .BCS, .REL, 2⟩, ⟨"LDA", .LDA, .IZY, 5⟩, ⟨"???", .XXX, .IMP, 2⟩, ⟨"???", .XXX, .IMP, 5⟩,
  ⟨"LDY", .LDY, .ZPX, 4⟩, ⟨"LDA", .LDA, .ZPX, 4⟩, ⟨"LDX", .LDX, .ZPY, 4⟩, ⟨"???", .XXX, .IMP, 4⟩,
  ⟨"CLV", .CLV, .IMP, 2⟩, ⟨"LDA", .LDA, .ABY, 4⟩, ⟨"TSX", .TSX, .IMP, 2⟩, ⟨"???", .XXX, .IMP, 4⟩,
  ⟨"LDY", .LDY, .ABX, 4⟩, ⟨"LDA", .LDA, .ABX, 4⟩, ⟨"LDX", .LDX, .ABY, 4⟩, ⟨"???", .XXX, .IMP, 4⟩]

/-- Opcode table row 0xC0 to 0xCF of `newInstructionSet`. -/
def instrRow12 : List Instruction := [
  ⟨"CPY", .CPY, .IMM, 2⟩, ⟨"CMP", .CMP, .IZX, 6⟩, ⟨"???", .NOP, .IMP, 2⟩, ⟨"???", .XXX, .IMP, 8⟩,
  ⟨"CPY", .CPY, .ZP0, 3⟩, ⟨"CMP", .CMP, .ZP0, 3⟩, ⟨"DEC", .DEC, .ZP0, 5⟩, ⟨"???", .XXX, .IMP, 5⟩,
  ⟨"INY", .INY, .IMP, 2⟩, ⟨"CMP", .CMP, .IMM, 2⟩, ⟨"DEX", .DEX, .IMP, 2⟩, ⟨"???", .XXX, .IMP, 2⟩,
  ⟨"CPY", .CPY, .ABS, 4⟩, ⟨"CMP", .CMP, .ABS, 4⟩, ⟨"DEC", .DEC, .ABS, 6⟩, ⟨"???", .XXX, .IMP, 6⟩]

/-- Opcode table row 0xD0 to 0xDF of `newInstructionSet`. -/
def instrRow13 : List Instruction := [
  ⟨"BNE", .BNE, .REL, 2⟩, ⟨"CMP", .CMP, .IZY, 5⟩, ⟨"???", .XXX, .IMP, 2⟩, ⟨"???", .XXX, .IMP, 8⟩,
  ⟨"???", .NOP, .IMP, 4⟩, ⟨"CMP", .CMP, .ZPX, 4⟩, ⟨"DEC", .DEC, .ZPX, 6⟩, ⟨"???", .XXX, .IMP, 6⟩,
  ⟨"CLD", .CLD, .IMP, 2⟩, ⟨"CMP", .CMP, .ABY, 4⟩, ⟨"NOP", .NOP, .IMP, 2⟩, ⟨"???", .XXX, .IMP, 7⟩,
  ⟨"???", .NOP, .IMP, 4⟩, ⟨"CMP", .CMP, .ABX, 4⟩, ⟨"DEC", .DEC, .ABX, 7⟩, ⟨"???", .XXX, .IMP, 7⟩]

/-- Opcode table row 0xE0 to 0xEF of `newInstructionSet`. -/
def instrRow14 : List Instruction := [
  ⟨"CPX", .CPX, .IMM, 2⟩, ⟨"SBC", .SBC, .IZX, 6⟩, ⟨"???", .NOP, .IMP, 2⟩, ⟨"???", .XXX, .IMP, 8⟩,
  ⟨"CPX", .CPX, .ZP0, 3⟩, ⟨"SBC", .SBC, .ZP0, 3⟩, ⟨"INC", .INC, .ZP0, 5⟩, ⟨"???", .XXX, .IMP, 5⟩,
  ⟨"INX", .INX, .IMP, 2⟩, ⟨"SBC", .SBC, .IMM, 2⟩, ⟨"NOP", .NOP, .IMP, 2⟩, ⟨"???", .SBC, .IMP, 2⟩,
  ⟨"CPX", .CPX, .ABS, 4⟩, ⟨"SBC", .SBC, .ABS, 4⟩, ⟨"INC", .INC, .ABS, 6⟩, ⟨"???", .XXX, .IMP, 6⟩]

/-- Opcode table row 0xF0 to 0xFF of `newInstructionSet`. -/
def instrRow15 : List Instruction := [
  ⟨"BEQ", .BEQ, .REL, 2⟩, ⟨"SBC", .SBC, .IZY, 5⟩, ⟨"???", .XXX, .IMP, 2⟩, ⟨"???", .XXX, .IMP, 8⟩,
  ⟨"???", .NOP, .IMP, 4⟩, ⟨"SBC", .SBC, .ZPX, 4⟩, ⟨"INC", .INC, .ZPX, 6⟩, ⟨"???", .XXX, .IMP, 6⟩,
  ⟨"SED", .SED, .IMP, 2⟩, ⟨"SBC", .SBC, .ABY, 4⟩, ⟨"NOP", .NOP, .IMP, 2⟩, ⟨"???", .XXX, .IMP, 7⟩,
  ⟨"???", .NOP, .IMP, 4⟩, ⟨"SBC", .SBC, .ABX, 4⟩, ⟨"INC", .INC, .ABX, 7⟩, ⟨"???", .XXX, .IMP, 7⟩]

/-- The fixed instruction table (`newInstructionSet`). -/
def instructionSet : List Instruction :=
  instrRow0 ++ instrRow1 ++ instrRow2 ++ instrRow3 ++ instrRow4 ++ instrRow5 ++
  instrRow6 ++ instrRow7 ++ instrRow8 ++ instrRow9 ++ instrRow10 ++ instrRow11 ++
  instrRow12 ++ instrRow13 ++ instrRow14 ++ instrRow15

/-- Table lookup `cpu.lookup[opcode]` (opcodes are always below 256). -/
def lookup (opcode : Nat) : Instruction :=
  instructionSet.getD opcode ⟨"???", .XXX, .IMP, 2⟩

/-- `cpu.fetch` from go/mgnes/instruction.go: read the operand from
`addrAbs` into `fetched` unless the addressing mode is implied. -/
def fetch (m : Machine) : Machine :=
  if (lookup m.cpu.opcode).am ≠ AddrMode.IMP then
    { m with cpu := { m.cpu with fetched := read m m.cpu.addrAbs } }
  else m

-- ===========================================================================
-- Operations, from go/mgnes/pkg/mg6502/instruction.go. Each returns the
-- updated machine and the potential-extra-cycle signal of the function.

/-- ADC: add with carry in, performed in the 16-bit domain. -/
def opADC (m : Machine) : Machine × Nat :=
  let m1 := fetch m
  let temp := u16 (m1.cpu.A + m1.cpu.fetched + getFlag m1.cpu FlagCarry)
  let c1 := setFlag { m1.cpu with temp := temp } FlagCarry (temp > 255)
  let c2 := setFlag c1 FlagZero (temp &&& 0x00FF = 0)
  let overflow := ((65535 ^^^ (m1.cpu.A ^^^ m1.cpu.fetched)) &&& (m1.cpu.A ^^^ temp)) &&& 0x0080
  let c3 := setFlag c2 FlagOverflow (overflow ≠ 0)
  let c4 := setFlag c3 FlagNegative (temp &&& 0x80 ≠ 0)
  ({ m1 with cpu := { c4 with A := temp &&& 0x00FF } }, 1)

/-- AND: bitwise and into the accumulator. -/
def opAND (m : Machine) : Machine × Nat :=
  let m1 := fetch m
  let a := m1.cpu.A &&& m1.cpu.fetched
  let c1 := setFlag { m1.cpu with A := a } FlagZero (a = 0x00)
  let c2 := setFlag c1 FlagNegative (a &&& 0x80 ≠ 0)
  ({ m1 with cpu := c2 }, 1)

/-- ASL: arithmetic shift left, to the accumulator or to memory. -/
def opASL (m : Machine) : Machine × Nat :=
  let m1 := fetch m
  let temp := u16 (m1.cpu.fetched <<< 1)
  let c1 := setFlag { m1.cpu with temp := temp } FlagCarry (temp &&& 0xFF00 > 0)
  let c2 := setFlag c1 FlagZero (temp &&& 0x00FF = 0x00)
  let c3 := setFlag c2 FlagNegative (temp &&& 0x80 ≠ 0)
  let m2 := { m1 with cpu := c3 }
  (if (lookup m2.cpu.opcode).am = AddrMode.IMP then
      { m2 with cpu := { m2.cpu with A := temp &&& 0x00FF } }
    else write m2 m2.cpu.addrAbs (temp &&& 0x00FF), 0)

/-- Shared body of the eight conditional branches: taken branches cost one
extra cycle, and one more when the target page differs from PC. -/
def branchOn (m : Machine) (taken : Bool) : Machine × Nat :=
  (if taken then
      let c1 := { m.cpu with cycles := inc8 m.cpu.cycles }
      let abs := u16 (c1.PC + c1.addrRel)
      let c2 := if abs &&& 0xFF00 ≠ c1.PC &&& 0xFF00 then
          { c1 with cycles := inc8 c1.cycles } else c1
      { m with cpu := { c2 with addrAbs := abs, PC := abs } }
    else m, 0)

/-- BCC: branch when carry clear. -/
def opBCC (m : Machine) : Machine × Nat := branchOn m (getFlag m.cpu FlagCarry = 0)

/-- BCS: branch when carry set. -/
def opBCS (m : Machine) : Machine × Nat := branchOn m (getFlag m.cpu FlagCarry = 1)

/-- BEQ: branch when zero set. -/
def opBEQ (m : Machine) : Machine × Nat := branchOn m (getFlag m.cpu FlagZero = 1)

/-- BIT: bit test of the accumulator against memory. -/
def opBIT (m : Machine) : Machine × Nat :=
  let m1 := fetch m
  let temp := m1.cpu.A &&& m1.cpu.fetched
  let c1 := setFlag { m1.cpu with temp := temp } FlagZero (temp &&& 0x00FF = 0x00)
  let c2 := setFlag c1 FlagNegative (m1.cpu.fetched &&& (1 <<< 7) ≠ 0)
  let c3 := setFlag c2 FlagOverflow (m1.cpu.fetched &&& (1 <<< 6) ≠ 0)
  ({ m1 with cpu := c3 }, 0)

/-- BMI: branch when negative set. -/
def opBMI (m : Machine) : Machine × Nat := branchOn m (getFlag m.cpu FlagNegative = 1)

/-- BNE: branch when zero clear. -/
def opBNE (m : Machine) : Machine × Nat := branchOn m (getFlag m.cpu FlagZero = 0)

/-- BPL: branch when negative clear. -/
def opBPL (m : Machine) : Machine × Nat := branchOn m (getFlag m.cpu FlagNegative = 0)

/-- BRK: program-sourced interrupt. -/
def opBRK (m : Machine) : Machine × Nat :=
  let m1 := { m with cpu := { m.cpu with PC := inc16 m.cpu.PC } }
  let m2 := { m1 with cpu := setFlag m1.cpu FlagInterrupt true }
  let m3 := pushPC m2
  let m4 := { m3 with cpu := setFlag m3.cpu FlagBreak true }
  let m5 := push m4 m4.cpu.FLAG
  let m6 := { m5 with cpu := setFlag m5.cpu FlagBreak false }
  ({ m6 with cpu := { m6.cpu with PC := read16 m6 0xFFFE } }, 0)

/-- BVC: branch when overflow clear. -/
def opBVC (m : Machine) : Machine × Nat := branchOn m (getFlag m.cpu FlagOverflow = 0)

/-- BVS: branch when overflow set. -/
def opBVS (m : Machine) : Machine × Nat := branchOn m (getFlag m.cpu FlagOverflow = 1)

/-- CLC: clear carry. -/
def opCLC (m : Machine) : Machine × Nat := ({ m with cpu := setFlag m.cpu FlagCarry false }, 0)

/-- CLD: clear decimal. -/
def opCLD (m : Machine) : Machine × Nat := ({ m with cpu := setFlag m.cpu FlagDecimal false }, 0)

/-- CLI: clear interrupt disable. -/
def opCLI (m : Machine) : Machine × Nat := ({ m with cpu := setFlag m.cpu FlagInterrupt false }, 0)

/-- CLV: clear overflow. -/
def opCLV (m : Machine) : Machine × Nat := ({ m with cpu := setFlag m.cpu FlagOverflow false }, 0)

/-- CMP: compare accumulator; the subtraction wraps in the 16-bit domain. -/
def opCMP (m : Machine) : Machine × Nat :=
  let m1 := fetch m
  let temp := (m1.cpu.A + 65536 - m1.cpu.fetched) % 65536
  let c1 := setFlag { m1.cpu with temp := temp } FlagCarry (m1.cpu.A ≥ m1.cpu.fetched)
  let c2 := setFlag c1 FlagZero (temp &&& 0x00FF = 0x0000)
  let c3 := setFlag c2 FlagNegative (temp &&& 0x0080 ≠ 0)
  ({ m1 with cpu := c3 }, 1)

/-- CPX: compare X register. -/
def opCPX (m : Machine) : Machine × Nat :=
  let m1 := fetch m
  let temp := (m1.cpu.X + 65536 - m1.cpu.fetched) % 65536
  let c1 := setFlag { m1.cpu with temp := temp } FlagCarry (m1.cpu.X ≥ m1.cpu.fetched)
  let c2 := setFlag c1 FlagZero (temp &&& 0x00FF = 0x0000)
  let c3 := setFlag c2 FlagNegative (temp &&& 0x0080 ≠ 0)
  ({ m1 with cpu := c3 }, 0)

/-- CPY: compare Y register. -/
def opCPY (m : Machine) : Machine × Nat :=
  let m1 := fetch m
  let temp := (m1.cpu.Y + 65536 - m1.cpu.fetched) % 65536
  let c1 := setFlag { m1.cpu with temp := temp } FlagCarry (m1.cpu.Y ≥ m1.cpu.fetched)
  let c2 := setFlag c1 FlagZero (temp &&& 0x00FF = 0x0000)
  let c3 := setFlag c2 FlagNegative (temp &&& 0x0080 ≠ 0)
  ({ m1 with cpu := c3 }, 0)

/-- DEC: decrement the value at the resolved memory location. -/
def opDEC (m : Machine) : Machine × Nat :=
  let m1 := fetch m
  let temp := dec8 m1.cpu.fetched
  let m2 := write { m1 with cpu := { m1.cpu with temp := temp } } m1.cpu.addrAbs (temp &&& 0x00FF)
  let c1 := setFlag m2.cpu FlagZero (temp &&& 0x00FF = 0x0000)
  let c2 := setFlag c1 FlagNegative (temp &&& 0x0080 ≠ 0)
  ({ m2 with cpu := c2 }, 0)

/-- DEX: decrement X. -/
def opDEX (m : Machine) : Machine × Nat :=
  let x := dec8 m.cpu.X
  let c1 := setFlag { m.cpu with X := x } FlagZero (x = 0x00)
  let c2 := setFlag c1 FlagNegative (x &&& 0x80 ≠ 0)
  ({ m with cpu := c2 }, 0)

/-- DEY: decrement Y. -/
def opDEY (m : Machine) : Machine × Nat :=
  let y := dec8 m.cpu.Y
  let c1 := setFlag { m.cpu with Y := y } FlagZero (y = 0x00)
  let c2 := setFlag c1 FlagNegative (y &&& 0x80 ≠ 0)
  ({ m with cpu := c2 }, 0)

/-- EOR: bitwise exclusive or into the accumulator. -/
def opEOR (m : Machine) : Machine × Nat :=
  let m1 := fetch m
  let a := m1.cpu.A ^^^ m1.cpu.fetched
  let c1 := setFlag { m1.cpu with A := a } FlagZero (a = 0x00)
  let c2 := setFlag c1 FlagNegative (a &&& 0x80 ≠ 0)
  ({ m1 with cpu := c2 }, 1)

/-- INC: increment the value at the resolved memory location. -/
def opINC (m : Machine) : Machine × Nat :=
  let m1 := fetch m
  let temp := inc8 m1.cpu.fetched
  let m2 := write { m1 with cpu := { m1.cpu with temp := temp } } m1.cpu.addrAbs (temp &&& 0x00FF)
  let c1 := setFlag m2.cpu FlagZero (temp &&& 0x00FF = 0x0000)
  let c2 := setFlag c1 FlagNegative (temp &&& 0x0080 ≠ 0)
  ({ m2 with cpu := c2 }, 0)

/-- INX: increment X. -/
def opINX (m : Machine) : Machine × Nat :=
  let x := inc8 m.cpu.X
  let c1 := setFlag { m.cpu with X := x } FlagZero (x = 0x00)
  let c2 := setFlag c1 FlagNegative (x &&& 0x80 ≠ 0)
  ({ m with cpu := c2 }, 0)

/-- INY: increment Y. -/
def opINY (m : Machine) : Machine × Nat :=
  let y := inc8 m.cpu.Y
  let c1 := setFlag { m.cpu with Y := y } FlagZero (y = 0x00)
  let c2 := setFlag c1 FlagNegative (y &&& 0x80 ≠ 0)
  ({ m with cpu := c2 }, 0)

/-- JMP: jump to the resolved address. -/
def opJMP (m : Machine) : Machine × Nat :=
  ({ m with cpu := { m.cpu with PC := m.cpu.addrAbs } }, 0)

/-- JSR: push the decremented PC, then jump. -/
def opJSR (m : Machine) : Machine × Nat :=
  let m1 := { m with cpu := { m.cpu with PC := (m.cpu.PC + 65535) % 65536 } }
  let m2 := pushPC m1
  ({ m2 with cpu := { m2.cpu with PC := m2.cpu.addrAbs } }, 0)

/-- LDA: load the accumulator. -/
def opLDA (m : Machine) : Machine × Nat :=
  let m1 := fetch m
  let c1 := setFlag { m1.cpu with A := m1.cpu.fetched } FlagZero (m1.cpu.fetched = 0)
  let c2 := setFlag c1 FlagNegative (m1.cpu.fetched &&& 0x80 ≠ 0)
  ({ m1 with cpu := c2 }, 0)

/-- LDX: load the X register. -/
def opLDX (m : Machine) : Machine × Nat :=
  let m1 := fetch m
  let c1 := setFlag { m1.cpu with X := m1.cpu.fetched } FlagZero (m1.cpu.fetched = 0)
  let c2 := setFlag c1 FlagNegative (m1.cpu.fetched &&& 0x80 ≠ 0)
  ({ m1 with cpu := c2 }, 0)

/-- LDY: load the Y register. -/
def opLDY (m : Machine) : Machine × Nat :=
  let m1 := fetch m
  let c1 := setFlag { m1.cpu with Y := m1.cpu.fetched } FlagZero (m1.cpu.fetched = 0)
  let c2 := setFlag c1 FlagNegative (m1.cpu.fetched &&& 0x80 ≠ 0)
  ({ m1 with cpu := c2 }, 0)

/-- LSR: logical shift right, to the accumulator or to memory. -/
def opLSR (m : Machine) : Machine × Nat :=
  let m1 := fetch m
  let c0 := setFlag m1.cpu FlagCarry (m1.cpu.fetched &&& 0x01 ≠ 0)
  let temp := m1.cpu.fetched >>> 1
  let c1 := setFlag { c0 with temp := temp } FlagZero (temp &&& 0x00FF = 0x0000)
  let c2 := setFlag c1 FlagNegative (temp &&& 0x0080 ≠ 0)
  let m2 := { m1 with cpu := c2 }
  (if (lookup m2.cpu.opcode).am = AddrMode.IMP then
      { m2 with cpu := { m2.cpu with A := temp &&& 0x00FF } }
    else write m2 m2.cpu.addrAbs (temp &&& 0x00FF), 0)

/-- NOP: no operation; a few specific opcodes may cost an extra cycle. -/
def opNOP (m : Machine) : Machine × Nat :=
  (m, if m.cpu.opcode = 0x1C ∨ m.cpu.opcode = 0x3C ∨ m.cpu.opcode = 0x5C ∨
        m.cpu.opcode = 0x7C ∨ m.cpu.opcode = 0xDC ∨ m.cpu.opcode = 0xFC then 1 else 0)

/-- ORA: bitwise or into the accumulator. -/
def opORA (m : Machine) : Machine × Nat :=
  let m1 := fetch m
  let a := m1.cpu.A ||| m1.cpu.fetched
  let c1 := setFlag { m1.cpu with A := a } FlagZero (a = 0x00)
  let c2 := setFlag c1 FlagNegative (a &&& 0x80 ≠ 0)
  ({ m1 with cpu := c2 }, 1)

/-- PHA: push the accumulator. -/
def opPHA (m : Machine) : Machine × Nat := (push m m.cpu.A, 0)

/-- PHP: push status with Break and Unused set, then clear both. -/
def opPHP (m : Machine) : Machine × Nat :=
  let c1 := setFlag m.cpu FlagBreak true
  let c2 := setFlag c1 FlagUnused true
  let m1 := push { m with cpu := c2 } c2.FLAG
  let c3 := setFlag m1.cpu FlagBreak false
  let c4 := setFlag c3 FlagUnused false
  ({ m1 with cpu := c4 }, 0)

/-- PLA: pop the accumulator. -/
def opPLA (m : Machine) : Machine × Nat :=
  let p := pop m
  let c1 := setFlag { p.1.cpu with A := p.2 } FlagZero (p.2 = 0x00)
  let c2 := setFlag c1 FlagNegative (p.2 &&& 0x80 ≠ 0)
  ({ p.1 with cpu := c2 }, 0)

/-- PLP: pop the status register, then force Unused. -/
def opPLP (m : Machine) : Machine × Nat :=
  let p := pop m
  let c1 := setFlag { p.1.cpu with FLAG := p.2 } FlagUnused true
  ({ p.1 with cpu := c1 }, 0)

/-- ROL: rotate left through carry; the shift happens in the 8-bit domain
before widening, as in the source. -/
def opROL (m : Machine) : Machine × Nat :=
  let m1 := fetch m
  let temp := u8 (m1.cpu.fetched <<< 1) ||| getFlag m1.cpu FlagCarry
  let c1 := setFlag { m1.cpu with temp := temp } FlagCarry (temp &&& 0xFF00 ≠ 0)
  let c2 := setFlag c1 FlagZero (temp &&& 0x00FF = 0x0000)
  let c3 := setFlag c2 FlagNegative (temp &&& 0x0080 ≠ 0)
  let m2 := { m1 with cpu := c3 }
  (if (lookup m2.cpu.opcode).am = AddrMode.IMP then
      { m2 with cpu := { m2.cpu with A := temp &&& 0x00FF } }
    else write m2 m2.cpu.addrAbs (temp &&& 0x00FF), 0)

/-- ROR: rotate right through carry. -/
def opROR (m : Machine) : Machine × Nat :=
  let m1 := fetch m
  let temp := (m1.cpu.fetched >>> 1) ||| u8 (getFlag m1.cpu FlagCarry <<< 7)
  let c1 := setFlag { m1.cpu with temp := temp } FlagCarry (m1.cpu.fetched &&& 0x01 ≠ 0)
  let c2 := setFlag c1 FlagZero (temp &&& 0x00FF = 0x00)
  let c3 := setFlag c2 FlagNegative (temp &&& 0x0080 ≠ 0)
  let m2 := { m1 with cpu := c3 }
  (if (lookup m2.cpu.opcode).am = AddrMode.IMP then
      { m2 with cpu := { m2.cpu with A := temp &&& 0x00FF } }
    else write m2 m2.cpu.addrAbs (temp &&& 0x00FF), 0)

/-- RTI: pop status (clearing Break and Unused), then pop PC. -/
def opRTI (m : Machine) : Machine × Nat :=
  let p := pop m
  let f1 := p.2 &&& (255 ^^^ FlagBreak) &&& (255 ^^^ FlagUnused)
  (popPC { p.1 with cpu := { p.1.cpu with FLAG := f1 } }, 0)

/-- RTS: pop PC, then increment it. -/
def opRTS (m : Machine) : Machine × Nat :=
  let m1 := popPC m
  ({ m1 with cpu := { m1.cpu with PC := inc16 m1.cpu.PC } }, 0)

/-- SBC: subtraction with borrow in, by adding the inverted operand. -/
def opSBC (m : Machine) : Machine × Nat :=
  let m1 := fetch m
  let value := m1.cpu.fetched ^^^ 0x00FF
  let temp := u16 (m1.cpu.A + value + getFlag m1.cpu FlagCarry)
  let c1 := setFlag { m1.cpu with temp := temp } FlagCarry (temp &&& 0xFF00 ≠ 0)
  let c2 := setFlag c1 FlagZero (temp &&& 0x00FF = 0)
  let overflow := (temp ^^^ m1.cpu.A) &&& ((temp ^^^ value) &&& 0x0080)
  let c3 := setFlag c2 FlagOverflow (overflow ≠ 0)
  let c4 := setFlag c3 FlagNegative (temp &&& 0x0080 ≠ 0)
  ({ m1 with cpu := { c4 with A := temp &&& 0x00FF } }, 1)

/-- SEC: set carry. -/
def opSEC (m : Machine) : Machine × Nat := ({ m with cpu := setFlag m.cpu FlagCarry true }, 0)

/-- SED: set decimal. -/
def opSED (m : Machine) : Machine × Nat := ({ m with cpu := setFlag m.cpu FlagDecimal true }, 0)

/-- SEI: set interrupt disable. -/
def opSEI (m : Machine) : Machine × Nat := ({ m with cpu := setFlag m.cpu FlagInterrupt true }, 0)

/-- STA: store the accumulator. -/
def opSTA (m : Machine) : Machine × Nat := (write m m.cpu.addrAbs m.cpu.A, 0)

/-- STX: store the X register. -/
def opSTX (m : Machine) : Machine × Nat := (write m m.cpu.addrAbs m.cpu.X, 0)

/-- STY: store the Y register. -/
def opSTY (m : Machine) : Machine × Nat := (write m m.cpu.addrAbs m.cpu.Y, 0)

/-- TAX: transfer A to X. -/
def opTAX (m : Machine) : Machine × Nat :=
  let c1 := setFlag { m.cpu with X := m.cpu.A } FlagZero (m.cpu.A = 0x00)
  let c2 := setFlag c1 FlagNegative (m.cpu.A &&& 0x80 ≠ 0)
  ({ m with cpu := c2 }, 0)

/-- TAY: transfer A to Y. -/
def opTAY (m : Machine) : Machine × Nat :=
  let c1 := setFlag { m.cpu with Y := m.cpu.A } FlagZero (m.cpu.A = 0x00)
  let c2 := setFlag c1 FlagNegative (m.cpu.A &&& 0x80 ≠ 0)
  ({ m with cpu := c2 }, 0)

/-- TSX: transfer SP to X. -/
def opTSX (m : Machine) : Machine × Nat :=
  let c1 := setFlag { m.cpu with X := m.cpu.SP } FlagZero (m.cpu.SP = 0x00)
  let c2 := setFlag c1 FlagNegative (m.cpu.SP &&& 0x80 ≠ 0)
  ({ m with cpu := c2 }, 0)

/-- TXA: transfer X to A. -/
def opTXA (m : Machine) : Machine × Nat :=
  let c1 := setFlag { m.cpu with A := m.cpu.X } FlagZero (m.cpu.X = 0x00)
  let c2 := setFlag c1 FlagNegative (m.cpu.X &&& 0x80 ≠ 0)
  ({ m with cpu := c2 }, 0)

/-- TXS: transfer X to SP, no flags. -/
def opTXS (m : Machine) : Machine × Nat :=
  ({ m with cpu := { m.cpu with SP := m.cpu.X } }, 0)

/-- TYA: transfer Y to A. -/
def opTYA (m : Machine) : Machine × Nat :=
  let c1 := setFlag { m.cpu with A := m.cpu.Y } FlagZero (m.cpu.Y = 0x00)
  let c2 := setFlag c1 FlagNegative (m.cpu.Y &&& 0x80 ≠ 0)
  ({ m with cpu := c2 }, 0)

/-- XXX: the catch-all for unofficial opcodes, functionally a NOP. -/
def opXXX (m : Machine) : Machine × Nat := (m, 0)

/-- Dispatch of the operation column. -/
def opRun : Op → Machine → Machine × Nat
  | .ADC => opADC
  | .AND => opAND
  | .ASL => opASL
  | .BCC => opBCC
  | .BCS => opBCS
  | .BEQ => opBEQ
  | .BIT => opBIT
  | .BMI => opBMI
  | .BNE => opBNE
  | .BPL => opBPL
  | .BRK => opBRK
  | .BVC => opBVC
  | .BVS => opBVS
  | .CLC => opCLC
  | .CLD => opCLD
  | .CLI => opCLI
  | .CLV => opCLV
  | .CMP => opCMP
  | .CPX => opCPX
  | .CPY => opCPY
  | .DEC => opDEC
  | .DEX => opDEX
  | .DEY => opDEY
  | .EOR => opEOR
  | .INC => opINC
  | .INX => opINX
  | .INY => opINY
  | .JMP => opJMP
  | .JSR => opJSR
  | .LDA => opLDA
  | .LDX => opLDX
  | .LDY => opLDY
  | .LSR => opLSR
  | .NOP => opNOP
  | .ORA => opORA
  | .PHA => opPHA
  | .PHP => opPHP
  | .PLA => opPLA
  | .PLP => opPLP
  | .ROL => opROL
  | .ROR => opROR
  | .RTI => opRTI
  | .RTS => opRTS
  | .SBC => opSBC
  | .SEC => opSEC
  | .SED => opSED
  | .SEI => opSEI
  | .STA => opSTA
  | .STX => opSTX
  | .STY => opSTY
  | .TAX => opTAX
  | .TAY => opTAY
  | .TSX => opTSX
  | .TXA => opTXA
  | .TXS => opTXS
  | .TYA => opTYA
  | .XXX => opXXX

-- ===========================================================================
-- The CPU driver functions, from go/mgnes/instruction.go (lines 747-875)
-- and identically go/mgnes/mg6502.go.

/-- `cpu.Reset`: power-up register pattern, PC seeded from the reset
vector at 0xFFFC, and an 8-cycle settle time. -/
def reset (m : Machine) : Machine :=
  { m with cpu := { m.cpu with
      PC := read16 m 0xFFFC,
      A := 0, X := 0, Y := 0, SP := 0xFD,
      FLAG := 0x00 ||| FlagUnused,
      addrRel := 0, addrAbs := 0, fetched := 0,
      cycles := 8 } }

/-- `cpu.IRQ`: honoured only when InterruptDisable is clear. -/
def irq (m : Machine) : Machine :=
  if getFlag m.cpu FlagInterrupt ≠ 0 then m
  else
    let m1 := pushPC m
    let c1 := setFlag m1.cpu FlagBreak false
    let c2 := setFlag c1 FlagUnused true
    let c3 := setFlag c2 FlagInterrupt true
    let m2 := push { m1 with cpu := c3 } c3.FLAG
    { m2 with cpu := { m2.cpu with PC := read16 m2 0xFFFE, cycles := 7 } }

/-- `cpu.NMI`: unconditional, vector 0xFFFA, 8 cycles. -/
def nmi (m : Machine) : Machine :=
  let m1 := pushPC m
  let c1 := setFlag m1.cpu FlagBreak false
  let c2 := setFlag c1 FlagUnused true
  let c3 := setFlag c2 FlagInterrupt true
  let m2 := push { m1 with cpu := c3 } c3.FLAG
  { m2 with cpu := { m2.cpu with PC := read16 m2 0xFFFA, cycles := 8 } }

/-- `cpu.Clock`: one clock cycle; a full fetch-decode-execute step fires
when the remaining-cycle counter is zero, and every call increments the
clock counter and decrements the cycle counter at the end. -/
def clock (m : Machine) : Machine :=
  if m.cpu.cycles = 0 then
    let opcode := read m m.cpu.PC
    let instruction := lookup opcode
    let m1 := { m with cpu := setFlag { m.cpu with opcode := opcode } FlagUnused true }
    let m2 := { m1 with cpu := { m1.cpu with PC := inc16 m1.cpu.PC } }
    let m3 := { m2 with cpu := { m2.cpu with cycles := instruction.cycles } }
    let amRes := amRun instruction.am m3
    let opRes := opRun instruction.op amRes.1
    let m4 := opRes.1
    let m5 := { m4 with cpu := { m4.cpu with cycles := u8 (m4.cpu.cycles + (amRes.2 &&& opRes.2)) } }
    let m6 := { m5 with cpu := setFlag m5.cpu FlagUnused true }
    let m7 := { m6 with cpu := { m6.cpu with clockCount := (m6.cpu.clockCount + 1) % 4294967296 } }
    { m7 with cpu := { m7.cpu with cycles := dec8 m7.cpu.cycles } }
  else
    let m7 := { m with cpu := { m.cpu with clockCount := (m.cpu.clockCount + 1) % 4294967296 } }
    { m7 with cpu := { m7.cpu with cycles := dec8 m7.cpu.cycles } }

/-- `cpu.Complete`: the in-flight instruction has finished. -/
def complete (m : Machine) : Bool := m.cpu.cycles = 0

/-- Iterated `cpu.Clock`. -/
def clockIter : Nat → Machine → Machine
  | 0, m => m
  | n + 1, m => clock (clockIter n m)

end mgnes

namespace ines

-- ===========================================================================
-- The iNES header parser, from package ines (src/unnamed/part_003).

/-- Parsed 16-byte iNES header (struct `Header`); byte lists stand for the
Go byte arrays. -/
structure Header where
  Identifier : List Nat
  PRG : Nat
  CHR : Nat
  Flag6 : Nat
  Flag7 : Nat
  PRGRAM : Nat
  Flag9 : Nat
  Flag10 : Nat
  padding : List Nat
  deriving DecidableEq, Repr

/-- The required magic signature: ascii NES plus an MS-DOS break byte. -/
def standardIdentifier : List Nat := [0x4E, 0x45, 0x53, 0x1A]

/-- The expected value of the five zero padding bytes. -/
def standardPadding : List Nat := [0x00, 0x00, 0x00, 0x00, 0x00]

/-- `NewHeader`: consume 16 bytes of the input, check the magic signature,
assign the named fields, and check the padding. The padding array is
filled by `copy(header.padding[:], buf[10:])`, which copies the five
bytes at offsets 10 through 14 of the buffer. -/
def newHeader (data : List Nat) : Except String Header :=
  if data.length < 16 then .error "invalid header size"
  else
    let buf := data.take 16
    let identifier := buf.take 4
    if identifier ≠ standardIdentifier then .error "invalid identifier"
    else
      let header : Header :=
        { Identifier := identifier,
          PRG := buf.getD 4 0, CHR := buf.getD 5 0,
          Flag6 := buf.getD 6 0, Flag7 := buf.getD 7 0,
          PRGRAM := buf.getD 8 0, Flag9 := buf.getD 9 0, Flag10 := buf.getD 10 0,
          padding := (buf.drop 10).take 5 }
      if header.padding ≠ standardPadding then .error "invalid padding"
      else .ok header

/-- `Header.PRGROMSize`: program ROM size in bytes. -/
def PRGROMSize (h : Header) : Nat := h.PRG * 16 * 1024

/-- `Header.CHRROMSize`: graphics ROM size in bytes. -/
def CHRROMSize (h : Header) : Nat := h.CHR * 8 * 1024

/-- `Header.Mapper`: mapper number assembled from the split nibbles of
flag bytes 6 and 7. -/
def mapperNumber (h : Header) : Nat := ((h.Flag6 &&& 0xF0) >>> 4) ||| (h.Flag7 &&& 0xF0)

/-- `Header.Trainer`: the T bit of flag byte 6. -/
def trainer (h : Header) : Bool := h.Flag6 &&& 0x04 ≠ 0

/-- `Header.Mirroring`: the M bit of flag byte 6. -/
def mirroring (h : Header) : Nat := h.Flag6 &&& 0x01

end ines

namespace mappers

-- ===========================================================================
-- The reference mapper, from go/mgnes/pkg/mappers/mapper_000.go.

/-- Mapper 0 state: only the two bank counts. -/
structure Mapper000 where
  numPRGBanks : Nat
  numCHRBanks : Nat
  deriving DecidableEq, Repr

/-- `NewMapper000`. -/
def newMapper000 (numPRGBanks numCHRBanks : Nat) : Mapper000 :=
  ⟨numPRGBanks, numCHRBanks⟩

/-- `Mapper000.CpuMapRead`: program addresses at or above 0x8000 map into
a mirrored 16 KiB window or a straight 32 KiB window. -/
def cpuMapRead (m : Mapper000) (addr : Nat) : Nat × Bool :=
  if addr ≥ 0x8000 then
    (if m.numPRGBanks > 1 then addr &&& 0x7FFF else addr &&& 0x3FFF, true)
  else (0, false)

/-- `Mapper000.CpuMapWrite`: identical mapping for writes. -/
def cpuMapWrite (m : Mapper000) (addr : Nat) : Nat × Bool :=
  if addr ≥ 0x8000 then
    (if m.numPRGBanks > 1 then addr &&& 0x7FFF else addr &&& 0x3FFF, true)
  else (0, false)

/-- `Mapper000.PpuMapRead`: graphics addresses below 0x2000 map 1:1,
claimed unconditionally. -/
def ppuMapRead (m : Mapper000) (addr : Nat) : Nat × Bool :=
  if addr ≤ 0x1FFF then (addr, true) else (0, false)

/-- `Mapper000.PpuMapWrite`: claimed only when the cartridge declares no
graphics banks, in which case the region is treated as RAM. -/
def ppuMapWrite (m : Mapper000) (addr : Nat) : Nat × Bool :=
  if addr ≤ 0x1FFF then
    (if m.numCHRBanks = 0 then (addr, true) else (0, false))
  else (0, false)

end mappers

namespace cartridge

open mappers ines

-- ===========================================================================
-- The cartridge, from go/mgnes/pkg/cartridge.go and the loader of package
-- cartridge (second half of go/mgnes/pkg/mappers/mapper_000.go).

/-- Struct `Cartridge`: parsed header fields plus the owned program and
graphics storage. -/
structure Cartridge where
  mirror : Nat
  imageValid : Bool
  mapperId : Nat
  numPRGBanks : Nat
  numCHRBanks : Nat
  memPRG : List Nat
  memCHR : List Nat
  mapper : Mapper000
  deriving DecidableEq, Repr

/-- `Cartridge.CpuRead`: consult the mapper, then index program storage;
`none` models the Go panic on an out-of-range index. -/
def cpuRead (cart : Cartridge) (addr : Nat) : Option (Nat × Bool) :=
  let p := cpuMapRead cart.mapper addr
  if p.2 then (cart.memPRG.get? p.1).map (fun d => (d, true))
  else some (0, false)

/-- `Cartridge.CpuWrite`. -/
def cpuWrite (cart : Cartridge) (addr data : Nat) : Option (Cartridge × Bool) :=
  let p := cpuMapWrite cart.mapper addr
  if p.2 then
    if p.1 < cart.memPRG.length then
      some ({ cart with memPRG := cart.memPRG.set p.1 data }, true)
    else none
  else some (cart, false)

/-- `Cartridge.PpuRead`: consult the mapper, then index graphics storage. -/
def ppuRead (cart : Cartridge) (addr : Nat) : Option (Nat × Bool) :=
  let p := ppuMapRead cart.mapper addr
  if p.2 then (cart.memCHR.get? p.1).map (fun d => (d, true))
  else some (0, false)

/-- `Cartridge.PpuWrite`. -/
def ppuWrite (cart : Cartridge) (addr data : Nat) : Option (Cartridge × Bool) :=
  let p := ppuMapWrite cart.mapper addr
  if p.2 then
    if p.1 < cart.memCHR.length then
      some ({ cart with memCHR := cart.memCHR.set p.1 data }, true)
    else none
  else some (cart, false)

/-- Modelled from the spec: `mappers.Create` is not among the provided
sources (only its caller `Load` and `NewMapper000` are). Per the spec,
mapper variants are keyed by the parsed mapper number and the reference
mapper 0 carries only the two bank counts of the header, so the created
mapper is `NewMapper000` applied to the header bank counts. -/
def createMapper (h : Header) : Mapper000 :=
  newMapper000 h.PRG h.CHR

/-- `cartridge.Load`: parse the header from the image, skip a 512-byte
trainer when flagged, then read program and graphics data of exactly the
sizes the header declares. -/
def load (data : List Nat) : Except String Cartridge :=
  match newHeader data with
  | .error _ => .error "invalid iNES header"
  | .ok header =>
    let rest := data.drop 16
    if trainer header ∧ rest.length < 512 then
      .error "invalid iNES header with trainer flag set"
    else
      let rest := if trainer header then rest.drop 512 else rest
      if rest.length < PRGROMSize header then .error "invalid PRG data"
      else
        let memPRG := rest.take (PRGROMSize header)
        let rest2 := rest.drop (PRGROMSize header)
        if rest2.length < CHRROMSize header then .error "invalid CHR data"
        else
          .ok { mirror := mirroring header,
                imageValid := true,
                mapperId := mapperNumber header,
                numPRGBanks := header.PRG,
                numCHRBanks := header.CHR,
                memPRG := memPRG,
                memCHR := rest2.take (CHRROMSize header),
                mapper := createMapper header }

end cartridge

namespace bus

open cartridge

-- ===========================================================================
-- The system bus, from package bus (go/mgnes/pkg/mg6502/instruction.go,
-- second part). The attached PPU (mg2C02) is the stub of
-- go/mgnes/pkg/mg2C02.go: its Clock does nothing and its CpuRead returns
-- zero, so here it is represented by a tick counter only. The work RAM is
-- the 2 KiB CpuMemory of package memory, indexed by `addr & 0x07FF`.

/-- Two's-complement wrap-around of a Go `int` (64 bits wide on the
supported platforms): increments past 2^63 - 1 wrap to -2^63. -/
def wrap64 (n : Int) : Int :=
  (n + 9223372036854775808) % 18446744073709551616 - 9223372036854775808

/-- Struct `Bus`: the attached CPU (with its memory image), the optionally
inserted cartridge, the 2 KiB work RAM, the PPU tick counter, and the
system clock counter. The counter is a Go `int`: a signed fixed-width
integer whose increment wraps (`wrap64`). `cart = none` is the nil
cartridge of `NewBus`. -/
structure Bus where
  mach : mgnes.Machine
  cart : Option Cartridge
  ram : Nat → Nat
  ppuTicks : Nat
  systemClockCounter : Int

/-- `NewBus`: no cartridge inserted, zeroed work RAM. -/
def newBus (mach : mgnes.Machine) : Bus :=
  { mach := mach, cart := none, ram := fun _ => 0, ppuTicks := 0, systemClockCounter := 0 }

/-- `Bus.CpuWrite`: the cartridge is always consulted first and may veto
the transaction; `none` models the nil-cartridge (or out-of-range) panic.
Unclaimed writes go to mirrored RAM below 0x2000, to the PPU stub in
0x2000-0x3FFF, and are dropped elsewhere. -/
def cpuWrite (b : Bus) (addr data : Nat) : Option Bus :=
  match b.cart with
  | none => none
  | some cart =>
    match cartridge.cpuWrite cart addr data with
    | none => none
    | some (cart2, true) => some { b with cart := some cart2 }
    | some (_, false) =>
      if addr ≤ 0x1FFF then
        some { b with ram := fun a => if a = addr &&& 0x07FF then mgnes.u8 data else b.ram a }
      else
        some b

/-- `Bus.CpuRead`: the cartridge is always consulted first; `none` models
the nil-cartridge (or out-of-range) panic. Unclaimed reads hit mirrored
RAM below 0x2000, the PPU stub (which returns 0) in 0x2000-0x3FFF, and
the zero-valued named return elsewhere. -/
def cpuRead (b : Bus) (addr : Nat) (readonly : Bool) : Option Nat :=
  match b.cart with
  | none => none
  | some cart =>
    match cartridge.cpuRead cart addr with
    | none => none
    | some (data, true) => some data
    | some (_, false) =>
      if addr ≤ 0x1FFF then some (b.ram (addr &&& 0x07FF))
      else some 0

/-- `Bus.InsertCartridge`. -/
def insertCartridge (b : Bus) (cart : Cartridge) : Bus :=
  { b with cart := some cart }

/-- `Bus.Reset`: forward to the CPU and zero the system clock counter. -/
def reset (b : Bus) : Bus :=
  { b with mach := mgnes.reset b.mach, systemClockCounter := 0 }

/-- `Bus.Clock`: the PPU is clocked on every call; the CPU is clocked only
when `systemClockCounter % 3 == 0` (the Go truncated remainder is zero
exactly when the counter is divisible by three, which the Euclidean
remainder used here captures for negative counters too); the counter is
then incremented with the wrapping `int` increment. -/
def clock (b : Bus) : Bus :=
  let b1 := { b with ppuTicks := b.ppuTicks + 1 }
  let b2 := if b1.systemClockCounter % 3 = 0 then { b1 with mach := mgnes.clock b1.mach } else b1
  { b2 with systemClockCounter := wrap64 (b2.systemClockCounter + 1) }

/-- Iterated `Bus.Clock`. -/
def clockIter : Nat → Bus → Bus
  | 0, b => b
  | n + 1, b => clock (clockIter n b)

end bus

namespace mgnes

-- ===========================================================================
-- Auxiliary definitions used by the verification statements.

/-- The public operations of the processor facade. -/
inductive ExtOp where
  | clockExt | irqExt | nmiExt | resetExt
  deriving DecidableEq, Repr

/-- Apply one public operation. -/
def applyExt : ExtOp → Machine → Machine
  | .clockExt => clock
  | .irqExt => irq
  | .nmiExt => nmi
  | .resetExt => reset

/-- Run a finite sequence of public operations, left to right. -/
def runExt : List ExtOp → Machine → Machine
  | [], m => m
  | o :: rest, m => runExt rest (applyExt o m)

/-- The constant extra-cycle signal returned by each operation function
(reading the function bodies: the arithmetic, logic and compare group
returns 1, `opNOP` returns 1 for six specific opcodes, everything else
returns 0; the branch operations adjust `cycles` directly instead). -/
def opRet (o : Op) (opcode : Nat) : Nat :=
  match o with
  | .ADC | .AND | .CMP | .EOR | .ORA | .SBC => 1
  | .NOP => if opcode = 0x1C ∨ opcode = 0x3C ∨ opcode = 0x5C ∨
        opcode = 0x7C ∨ opcode = 0xDC ∨ opcode = 0xFC then 1 else 0
  | _ => 0

/-- The eight conditional branches, the only operations that write the
cycle counter themselves. -/
def isBranch : Op → Bool
  | .BCC | .BCS | .BEQ | .BMI | .BNE | .BPL | .BVC | .BVS => true
  | _ => false

-- The stages of one fetch-decode-execute step, in the order the Clock
-- body performs them.

/-- Read the opcode byte at PC into the opcode register. -/
def stageFetchOpcode (m : Machine) : Machine :=
  { m with cpu := { m.cpu with opcode := read m m.cpu.PC } }

/-- Force the Unused status flag to 1. -/
def stageForceUnused (m : Machine) : Machine :=
  { m with cpu := setFlag m.cpu FlagUnused true }

/-- Increment the program counter past the opcode byte. -/
def stageIncPC (m : Machine) : Machine :=
  { m with cpu := { m.cpu with PC := inc16 m.cpu.PC } }

/-- Load the cycle counter with the base cycle count of the looked-up
instruction. -/
def stageLoadCycles (m : Machine) : Machine :=
  { m with cpu := { m.cpu with cycles := (lookup m.cpu.opcode).cycles } }

/-- Run the addressing-mode resolver and then the operation of the
looked-up instruction, keeping both extra-cycle signals. -/
def stageResolveExecute (m : Machine) : Machine × Nat × Nat :=
  let amRes := amRun (lookup m.cpu.opcode).am m
  let opRes := opRun (lookup m.cpu.opcode).op amRes.1
  (opRes.1, amRes.2, opRes.2)

/-- Add to the cycle counter the bitwise and of the two extra-cycle
signals. -/
def stageCombine (m : Machine) (a e : Nat) : Machine :=
  { m with cpu := { m.cpu with cycles := u8 (m.cpu.cycles + (a &&& e)) } }

/-- The machine state right before the addressing-mode resolver runs:
opcode read, Unused forced, PC incremented, base cycles loaded. -/
def preResolveState (m : Machine) : Machine :=
  stageLoadCycles (stageIncPC (stageForceUnused (stageFetchOpcode m)))

/-- One full fetch-decode-execute step, as the sequence of its stages. -/
def fetchDecodeExecute (m : Machine) : Machine :=
  let r := stageResolveExecute (preResolveState m)
  stageForceUnused (stageCombine r.1 r.2.1 r.2.2)

/-- The unconditional tail of every Clock call: count the clock and
decrement the remaining-cycle counter by one. -/
def stageTick (m : Machine) : Machine :=
  { m with cpu := { m.cpu with
      clockCount := (m.cpu.clockCount + 1) % 4294967296,
      cycles := dec8 m.cpu.cycles } }

/-- The low byte of the indirect-jump pointer operand: the byte at PC. -/
def indPtrLo (m : Machine) : Nat := read m m.cpu.PC

/-- The high byte of the indirect-jump pointer operand: the byte after. -/
def indPtrHi (m : Machine) : Nat := read m (m.cpu.PC + 1)

/-- The 16-bit pointer operand of the indirect addressing mode. -/
def indPtr (m : Machine) : Nat := 256 * indPtrHi m + indPtrLo m

/-- The first byte of the 256-byte page the pointer lies on. -/
def indPageStart (m : Machine) : Nat := 256 * indPtrHi m

/-- All-zero register file. -/
def zeroCPU : MG6502 := ⟨0, 0, 0, 0, 0, 0, 0, 0, 0, 0, 0, 0, 0⟩

/-- Machine used against the absolute+Y resolver: PC points at the base
address 0x1000, Y is 5 and the stale `addrAbs` is 0. -/
def abyMachine : Machine :=
  { cpu := { zeroCPU with Y := 5 },
    mem := fun a => if a = 0 then 0x00 else if a = 1 then 0x10 else 0 }

/-- Machine about to execute STA absolute+X (opcode 0x9D, base cycle
count 5) with base 0x00FF and X = 1, so the indexed address 0x0100
crosses a page boundary. -/
def staAbxMachine : Machine :=
  { cpu := { zeroCPU with X := 1, A := 0xAB },
    mem := fun a => if a = 0 then 0x9D else if a = 1 then 0xFF
      else if a = 2 then 0x00 else 0 }

/-- Machine about to execute AND absolute+X (opcode 0x3D, base cycle
count 4) with base 0x00FF and X = 1, crossing a page boundary. -/
def andAbxMachine : Machine :=
  { cpu := { zeroCPU with X := 1, A := 0xFF },
    mem := fun a => if a = 0 then 0x3D else if a = 1 then 0xFF
      else if a = 2 then 0x00 else 0 }

/-- Machine with the reset vector 0xFFFC/0xFFFD holding 0x1234. -/
def resetMachine : Machine :=
  { cpu := zeroCPU,
    mem := fun a => if a = 0xFFFC then 0x34 else if a = 0xFFFD then 0x12 else 0 }

/-- Machine for the indirect-jump page-wrap defect: the pointer operand
is 0x30FF, memory holds 0x80 at 0x30FF, 0x12 at 0x3000 and 0x99 at
0x3100. -/
def indMachine : Machine :=
  { cpu := zeroCPU,
    mem := fun a => if a = 0 then 0xFF else if a = 1 then 0x30
      else if a = 0x30FF then 0x80 else if a = 0x3000 then 0x12
      else if a = 0x3100 then 0x99 else 0 }

end mgnes

namespace ines

/-- A 16-byte header with the correct magic, 1 program bank, 1 graphics
bank, reserved bytes 11 through 15 all zero, and flag byte 10 equal to
0x20 (the documented bus-conflict bit). -/
def flag10Header : List Nat :=
  [0x4E, 0x45, 0x53, 0x1A, 1, 1, 0, 0, 0, 0, 0x20, 0, 0, 0, 0, 0]

/-- A 16-byte header with the correct magic, bytes 10 through 14 zero,
and the final reserved byte 15 equal to 7. -/
def tailByteHeader : List Nat :=
  [0x4E, 0x45, 0x53, 0x1A, 1, 1, 0, 0, 0, 0, 0, 0, 0, 0, 0, 7]

/-- The header `tailByteHeader` parses to. -/
def tailByteParsed : Header :=
  { Identifier := [0x4E, 0x45, 0x53, 0x1A],
    PRG := 1, CHR := 1, Flag6 := 0, Flag7 := 0,
    PRGRAM := 0, Flag9 := 0, Flag10 := 0,
    padding := [0, 0, 0, 0, 0] }

end ines

namespace cartridge

/-- A well-formed cartridge image for the reference mapper: header with
magic, 1 program bank, 0 graphics banks, all flag and reserved bytes
zero, followed by exactly 16 KiB of program data. -/
def chrZeroImage : List Nat :=
  [0x4E, 0x45, 0x53, 0x1A, 1, 0, 0, 0, 0, 0, 0, 0, 0, 0, 0, 0] ++
    List.replicate 16384 0

/-- The header `chrZeroImage` parses to. -/
def c5Parsed : ines.Header :=
  { Identifier := [0x4E, 0x45, 0x53, 0x1A], PRG := 1, CHR := 0, Flag6 := 0,
    Flag7 := 0, PRGRAM := 0, Flag9 := 0, Flag10 := 0, padding := [0, 0, 0, 0, 0] }

/-- The cartridge `chrZeroImage` loads to: 16 KiB of program storage and
empty graphics storage. -/
def c5Cart : Cartridge :=
  { mirror := 0, imageValid := true, mapperId := 0,
    numPRGBanks := 1, numCHRBanks := 0,
    memPRG := List.replicate 16384 0, memCHR := [],
    mapper := ⟨1, 0⟩ }

/-- A minimal cartridge for exercising the bus routing: one program bank
whose storage is stand-in data, no graphics banks. -/
def tinyCart : Cartridge :=
  { mirror := 0, imageValid := true, mapperId := 0,
    numPRGBanks := 1, numCHRBanks := 0,
    memPRG := [42], memCHR := [],
    mapper := ⟨1, 0⟩ }

end cartridge

namespace bus

/-- A freshly constructed bus with `tinyCart` inserted. -/
def tinyBus : Bus :=
  insertCartridge (newBus ⟨mgnes.zeroCPU, fun _ => 0⟩) cartridge.tinyCart

end bus

-- ===========================================================================
-- Theorems.

namespace mgnes

/-- Every bus read yields a byte. -/
theorem read_lt (m : Machine) (a : Nat) : read m a < 256 :=
  Nat.mod_lt _ (by decide)

/-- Combining a high byte and a low byte below 256 by shift-or is plain
arithmetic. -/
theorem hiLo_or (hi lo : Nat) (h : lo < 256) : hi <<< 8 ||| lo = 256 * hi + lo := by
  have h2 : lo < 2 ^ 8 := h
  calc hi <<< 8 ||| lo = 2 ^ 8 * hi ||| lo := by rw [Nat.shiftLeft_eq, Nat.mul_comm]
    _ = 2 ^ 8 * hi + lo := (Nat.mul_add_lt_is_or h2 hi).symm
    _ = 256 * hi + lo := by norm_num

/-- A 16-bit bus read is the little-endian value of its two bytes. -/
theorem read16_eq (m : Machine) (a : Nat) :
    read16 m a = 256 * read m (a + 1) + read m a :=
  hiLo_or _ _ (read_lt m a)

/-- Bit 5 survives an or with the Unused mask. -/
theorem testBit5_or32 (x : Nat) : (x ||| 32).testBit 5 = true := by
  rw [Nat.testBit_or]
  have h : Nat.testBit 32 5 = true := by decide
  rw [h, Bool.or_true]

/-- The `GetFlag` view of the Unused bit agrees with `testBit 5`. -/
theorem getFlag_unused_iff (c : MG6502) :
    getFlag c FlagUnused = 1 ↔ c.FLAG.testBit 5 = true := by
  have h := Nat.and_two_pow c.FLAG 5
  norm_num at h
  unfold getFlag FlagUnused
  rw [h]
  cases htb : c.FLAG.testBit 5 <;> simp [htb]

/-- Claim C1 (status code_bug): evaluation of the absolute+Y resolver at
the failing input. The two bytes after the opcode hold the base address
0x1000 and Y is 5, so the claimed effective address is 0x1005 with no
page crossing; the code instead produces 0x0005 (stale `addrAbs` plus Y,
because `amABY` never assigns the base to `addrAbs`) and reports the
one-extra-cycle signal. -/
theorem c1_amABY_stale_address :
    read16 abyMachine abyMachine.cpu.PC = 0x1000 ∧
    abyMachine.cpu.Y = 5 ∧
    abyMachine.cpu.addrAbs = 0 ∧
    (amABY abyMachine).1.cpu.addrAbs = 0x0005 ∧
    (amABY abyMachine).2 = 1 := by decide

/-- The composed pointer of the indirect addressing mode, in arithmetic
form. -/
theorem indPtr_eq (m : Machine) :
    (indPtrHi m) <<< 8 ||| indPtrLo m = indPtr m :=
  hiLo_or (indPtrHi m) (indPtrLo m) (read_lt m m.cpu.PC)

set_option maxRecDepth 4000 in
/-- Masking the high page out of a 16-bit composed pointer. -/
theorem ptr_page_mask (hi : Nat) (h : hi < 256) :
    (256 * hi + 0xFF) &&& 0xFF00 = 256 * hi := by
  have hall : ∀ n, n < 256 → (256 * n + 0xFF) &&& 0xFF00 = 256 * n := by decide
  exact hall hi h

/-- Claim C8: the indirect-jump resolver reproduces the hardware
page-wrap defect: when the pointer low byte is 0xFF the high byte of the
effective address is read from the first byte of the pointer page
(256 * high pointer byte); otherwise it is read from pointer + 1. The
low byte always comes from the pointer itself. -/
theorem c8_indirect_page_wrap (m : Machine) :
    (indPtrLo m = 0xFF →
      (amIND m).1.cpu.addrAbs
        = 256 * read m (indPageStart m) + read m (indPtr m)) ∧
    (indPtrLo m ≠ 0xFF →
      (amIND m).1.cpu.addrAbs
        = 256 * read m (indPtr m + 1) + read m (indPtr m)) := by
  have hlo : indPtrLo m < 256 := read_lt m m.cpu.PC
  have hhi : indPtrHi m < 256 := read_lt m (m.cpu.PC + 1)
  have hptr : (indPtrHi m) <<< 8 ||| indPtrLo m = indPtr m := indPtr_eq m
  constructor
  · intro h
    show (amIND m).1.cpu.addrAbs = _
    unfold amIND
    simp only [show read m m.cpu.PC = indPtrLo m from rfl,
      show read m (m.cpu.PC + 1) = indPtrHi m from rfl, h, if_pos rfl]
    rw [hiLo_or _ _ (read_lt m _)]
    have hp : (indPtrHi m) <<< 8 ||| 0xFF = indPtr m := by rw [← h]; exact hptr
    rw [hp]
    have hps : indPtr m &&& 0xFF00 = indPageStart m := by
      unfold indPtr indPageStart
      rw [h]
      exact ptr_page_mask _ hhi
    rw [hps]
    simp [Nat.add_zero]
  · intro h
    show (amIND m).1.cpu.addrAbs = _
    unfold amIND
    simp only [show read m m.cpu.PC = indPtrLo m from rfl,
      show read m (m.cpu.PC + 1) = indPtrHi m from rfl, if_neg h, hptr]
    rw [hiLo_or _ _ (read_lt m _)]
    simp [Nat.add_zero]

/-- Witness for claim C8 at the concrete pointer 0x30FF of the spec:
the effective address combines the byte at 0x30FF (low) with the byte at
0x3000 (high), not the byte at 0x3100. -/
theorem c8_indirect_page_wrap_witness :
    indPtrLo indMachine = 0xFF ∧
    (amIND indMachine).1.cpu.addrAbs
      = 256 * read indMachine (indPageStart indMachine) + read indMachine (indPtr indMachine) :=
  ⟨by decide, (c8_indirect_page_wrap indMachine).1 (by decide)⟩

/-- Clock calls with a pending instruction only tick the counters. -/
theorem clock_pending (m : Machine) (h : m.cpu.cycles ≠ 0) :
    clock m = stageTick m := by
  unfold clock stageTick
  rw [if_neg h]

/-- `dec8` on a small positive value is plain decrement. -/
theorem dec8_small (n : Nat) (h1 : 1 ≤ n) (h2 : n ≤ 256) : dec8 n = n - 1 := by
  unfold dec8; omega

/-- Claim C7: after Reset the program counter holds the little-endian
word at 0xFFFC/0xFFFD, SP is 0xFD, the status register is exactly the
Unused flag, A, X and Y are zero and the remaining-cycle counter is 8;
moreover the next 8 clock calls only count the settle time down, leaving
PC and memory untouched, so the first instruction fetch happens only
after 8 elapsed cycles. -/
theorem c7_reset_state (m : Machine) :
    (reset m).cpu.PC = 256 * read m 0xFFFD + read m 0xFFFC ∧
    (reset m).cpu.SP = 0xFD ∧
    (reset m).cpu.FLAG = FlagUnused ∧
    (reset m).cpu.A = 0 ∧ (reset m).cpu.X = 0 ∧ (reset m).cpu.Y = 0 ∧
    (reset m).cpu.cycles = 8 ∧
    (∀ k, k ≤ 8 →
      (clockIter k (reset m)).cpu.cycles = 8 - k ∧
      (clockIter k (reset m)).cpu.PC = (reset m).cpu.PC ∧
      (clockIter k (reset m)).mem = (reset m).mem) := by
  refine ⟨?_, rfl, Nat.zero_or FlagUnused, rfl, rfl, rfl, rfl, ?_⟩
  · show read16 m 0xFFFC = _
    rw [read16_eq]
  · intro k hk
    induction k with
    | zero => exact ⟨rfl, rfl, rfl⟩
    | succ j ih =>
      have hj : j ≤ 8 := Nat.le_of_succ_le hk
      obtain ⟨hc, hpc, hmem⟩ := ih hj
      have hne : (clockIter j (reset m)).cpu.cycles ≠ 0 := by omega
      have hstep : clockIter (j + 1) (reset m) = stageTick (clockIter j (reset m)) := by
        show clock _ = _
        exact clock_pending _ hne
      refine ⟨?_, ?_, ?_⟩
      · rw [hstep]
        show dec8 (clockIter j (reset m)).cpu.cycles = 8 - (j + 1)
        rw [hc, dec8_small (8 - j) (by omega) (by omega)]
        omega
      · rw [hstep]; exact hpc
      · rw [hstep]; exact hmem

/-- Witness for claim C7: on a machine whose reset vector holds 0x1234,
eight clock calls after Reset leave the cycle counter at zero with PC
still 0x1234. -/
theorem c7_reset_state_witness :
    (clockIter 8 (reset resetMachine)).cpu.cycles = 8 - 8 ∧
    (reset resetMachine).cpu.PC = 256 * read resetMachine 0xFFFD + read resetMachine 0xFFFC :=
  ⟨((c7_reset_state resetMachine).2.2.2.2.2.2.2 8 (by decide)).1,
    (c7_reset_state resetMachine).1⟩

end mgnes

namespace ines

/-- Claim C4 (status code_bug): the padding check is off by one. A header
with correct magic, zeroes in the five reserved bytes 11 through 15 but
a non-zero flag byte 10 is rejected with the padding error, while a
header whose final reserved byte 15 is non-zero parses successfully,
because `NewHeader` copies bytes 10 through 14 into the padding array
instead of bytes 11 through 15. -/
theorem c4_padding_off_by_one :
    newHeader flag10Header = Except.error "invalid padding" ∧
    newHeader tailByteHeader = Except.ok tailByteParsed :=
  ⟨rfl, rfl⟩

end ines

namespace cartridge

/-- The header of the one-program-bank, zero-graphics-bank image parses
successfully. -/
theorem c5_header : ines.newHeader chrZeroImage = Except.ok c5Parsed := by
  have h1 : chrZeroImage.length = 16400 := by
    unfold chrZeroImage
    rw [List.length_append, List.length_replicate]
    rfl
  have h2 : chrZeroImage.take 16
      = [0x4E, 0x45, 0x53, 0x1A, 1, 0, 0, 0, 0, 0, 0, 0, 0, 0, 0, 0] := by
    unfold chrZeroImage
    exact List.take_left' rfl
  unfold ines.newHeader
  rw [h1, h2]
  rfl

/-- Loading the one-program-bank, zero-graphics-bank image succeeds and
allocates empty graphics storage. -/
theorem c5_load : load chrZeroImage = Except.ok c5Cart := by
  have hdrop : chrZeroImage.drop 16 = List.replicate 16384 0 := by
    unfold chrZeroImage
    exact List.drop_left' rfl
  unfold load
  rw [c5_header]
  dsimp only
  rw [hdrop]
  have htr : ines.trainer c5Parsed = false := rfl
  rw [if_neg (fun hc => absurd htr (by simp [hc.1]))]
  rw [if_neg (show ¬ ines.trainer c5Parsed = true by rw [htr]; exact Bool.false_ne_true)]
  rw [List.length_replicate]
  rw [if_neg (show ¬ (16384 < ines.PRGROMSize c5Parsed) by decide)]
  rw [show ines.PRGROMSize c5Parsed = 16384 from rfl]
  rw [List.take_replicate, List.drop_replicate]
  norm_num
  rfl

/-- Claim C5 (status code_bug): loading a well-formed image with one
program bank and zero graphics banks succeeds and allocates empty
graphics storage, yet the reference mapper still claims graphics address
0 for both reads and writes with mapped offset 0, which is not within
the bounds of the empty storage; consequently the cartridge graphics
read faults (models the Go index-out-of-range panic). -/
theorem c5_chr_zero_out_of_bounds :
    load chrZeroImage = Except.ok c5Cart ∧
    (mappers.ppuMapRead c5Cart.mapper 0).1 = 0 ∧
    (mappers.ppuMapRead c5Cart.mapper 0).2 = true ∧
    (mappers.ppuMapWrite c5Cart.mapper 0).2 = true ∧
    c5Cart.memCHR.length = 0 ∧
    ppuRead c5Cart 0 = none :=
  ⟨c5_load, rfl, rfl, rfl, rfl, rfl⟩

end cartridge

namespace bus

/-- One bus clock leaves the CPU untouched when the counter is not
divisible by three. -/
theorem clock_mach_of_ne (b : Bus) (h : ¬ b.systemClockCounter % 3 = 0) :
    (clock b).mach = b.mach := by
  unfold clock
  dsimp only
  rw [if_neg h]

/-- One bus clock advances the counter by the wrapping increment. -/
theorem clock_counter (b : Bus) :
    (clock b).systemClockCounter = wrap64 (b.systemClockCounter + 1) := by
  unfold clock
  dsimp only
  split <;> rfl

/-- After `k` bus clocks from a bus reset, the system clock counter holds
the wrapped image of `k`. -/
theorem clockIter_counter (b : Bus) (k : Nat) :
    (clockIter k (reset b)).systemClockCounter = wrap64 (k : Int) := by
  induction k with
  | zero =>
    show (0 : Int) = wrap64 0
    unfold wrap64
    decide
  | succ j ih =>
    show (bus.clock (clockIter j (reset b))).systemClockCounter = _
    rw [clock_counter, ih]
    unfold wrap64
    omega

/-- Before the counter first wraps, `k` bus clocks from a bus reset tick
the peripheral `k` times, clock the processor once for every third call,
and leave the counter at `k`. -/
theorem clockIter_reset_pre (b : Bus) (k : Nat) (hk : k < 9223372036854775808) :
    clockIter k (reset b)
      = ⟨mgnes.clockIter ((k + 2) / 3) (mgnes.reset b.mach),
          b.cart, b.ram, b.ppuTicks + k, (k : Int)⟩ := by
  induction k with
  | zero => rfl
  | succ j ih =>
    have hj : j < 9223372036854775808 := by omega
    show bus.clock (clockIter j (reset b)) = _
    rw [ih hj]
    unfold bus.clock
    dsimp only
    have hw : wrap64 ((j : Int) + 1) = (j : Int) + 1 := by
      unfold wrap64
      omega
    by_cases h : j % 3 = 0
    · rw [if_pos (show (j : Int) % 3 = 0 by omega)]
      have h3 : (j + 1 + 2) / 3 = (j + 2) / 3 + 1 := by omega
      rw [h3, hw]
      rfl
    · rw [if_neg (show ¬ (j : Int) % 3 = 0 by omega)]
      have h3 : (j + 1 + 2) / 3 = (j + 2) / 3 := by omega
      rw [h3, hw]
      rfl

/-- Counterexample for claim C9 as stated: the cadence drifts at the
counter wrap. After 2^63 - 1 bus clocks from a bus reset the counter
holds 2^63 - 1; the next three consecutive bus clock calls (the calls
whose counters read 2^63 - 1, -2^63 and -2^63 + 1, none divisible by
three) advance the processor not at all, violating the claimed
one-out-of-every-three-consecutive-calls ratio. -/
theorem c9_wrap_skips_beat :
    (bus.clock (bus.clockIter 9223372036854775807 (bus.reset bus.tinyBus))).mach
        = (bus.clockIter 9223372036854775807 (bus.reset bus.tinyBus)).mach ∧
    (bus.clock (bus.clock (bus.clockIter 9223372036854775807 (bus.reset bus.tinyBus)))).mach
        = (bus.clockIter 9223372036854775807 (bus.reset bus.tinyBus)).mach ∧
    (bus.clock (bus.clock (bus.clock
        (bus.clockIter 9223372036854775807 (bus.reset bus.tinyBus))))).mach
        = (bus.clockIter 9223372036854775807 (bus.reset bus.tinyBus)).mach := by
  have hc1 : (bus.clockIter 9223372036854775807 (bus.reset bus.tinyBus)).systemClockCounter
      = 9223372036854775807 := by
    rw [clockIter_counter]
    unfold wrap64
    decide
  have hm1 : (bus.clock (bus.clockIter 9223372036854775807 (bus.reset bus.tinyBus))).mach
      = (bus.clockIter 9223372036854775807 (bus.reset bus.tinyBus)).mach := by
    apply clock_mach_of_ne
    rw [hc1]
    decide
  have hc2 : (bus.clock (bus.clockIter 9223372036854775807 (bus.reset bus.tinyBus))).systemClockCounter
      = -9223372036854775808 := by
    rw [clock_counter, hc1]
    unfold wrap64
    decide
  have hm2 : (bus.clock (bus.clock (bus.clockIter 9223372036854775807 (bus.reset bus.tinyBus)))).mach
      = (bus.clock (bus.clockIter 9223372036854775807 (bus.reset bus.tinyBus))).mach := by
    apply clock_mach_of_ne
    rw [hc2]
    decide
  have hc3 : (bus.clock (bus.clock
      (bus.clockIter 9223372036854775807 (bus.reset bus.tinyBus)))).systemClockCounter
      = -9223372036854775807 := by
    rw [clock_counter, hc2]
    unfold wrap64
    decide
  have hm3 : (bus.clock (bus.clock (bus.clock
      (bus.clockIter 9223372036854775807 (bus.reset bus.tinyBus))))).mach
      = (bus.clock (bus.clock (bus.clockIter 9223372036854775807 (bus.reset bus.tinyBus)))).mach := by
    apply clock_mach_of_ne
    rw [hc3]
    decide
  exact ⟨hm1, by rw [hm2, hm1], by rw [hm3, hm2, hm1]⟩

/-- Claim C9 as amended: every bus clock advances the peripheral exactly
once and advances the processor exactly when the (wrapping, signed)
system clock counter is divisible by three; starting from a bus reset
(which zeroes the counter), for every n with 3n below 2^63 — that is,
until the counter first wraps — after 3n bus clocks the processor has
been clocked exactly n times, the peripheral exactly 3n times, and the
counter reads 3n. At the counter wrap the cadence slips by one call, so
the ratio is maintained only until the wrap. -/
theorem c9_ratio_until_wrap :
    (∀ b : Bus, (clock b).ppuTicks = b.ppuTicks + 1 ∧
       (clock b).mach
         = if b.systemClockCounter % 3 = 0 then mgnes.clock b.mach else b.mach) ∧
    (∀ (b : Bus) (n : Nat), 3 * n < 9223372036854775808 →
       clockIter (3 * n) (reset b)
         = ⟨mgnes.clockIter n (mgnes.reset b.mach),
             b.cart, b.ram, b.ppuTicks + 3 * n, ((3 * n : Nat) : Int)⟩) := by
  constructor
  · intro b
    unfold clock
    dsimp only
    constructor
    · split <;> rfl
    · split <;> rfl
  · intro b n hn
    rw [clockIter_reset_pre b (3 * n) hn]
    have h3 : (3 * n + 2) / 3 = n := by omega
    rw [h3]

/-- Witness for claim C9 as amended: six bus clocks from a reset of the
concrete bus `tinyBus` clock the processor exactly twice. -/
theorem c9_ratio_until_wrap_witness :
    clockIter (3 * 2) (reset tinyBus)
      = ⟨mgnes.clockIter 2 (mgnes.reset tinyBus.mach),
          tinyBus.cart, tinyBus.ram, tinyBus.ppuTicks + 3 * 2, ((3 * 2 : Nat) : Int)⟩ :=
  c9_ratio_until_wrap.2 tinyBus 2 (by decide)

/-- Claim C10: both bus accessors consult the cartridge before any RAM
or peripheral routing, so on a freshly constructed bus (no cartridge
inserted) every CPU read and every CPU write faults on the nil
cartridge; and whenever an attached cartridge claims an address, the
access is settled by the cartridge alone. -/
theorem c10_cartridge_first :
    (∀ (m : mgnes.Machine) (addr : Nat) (ro : Bool), cpuRead (newBus m) addr ro = none) ∧
    (∀ (m : mgnes.Machine) (addr data : Nat), cpuWrite (newBus m) addr data = none) ∧
    (∀ (b : Bus) (cart : cartridge.Cartridge) (addr d : Nat) (ro : Bool),
       b.cart = some cart → cartridge.cpuRead cart addr = some (d, true) →
       cpuRead b addr ro = some d) ∧
    (∀ (b : Bus) (cart cart2 : cartridge.Cartridge) (addr data : Nat),
       b.cart = some cart → cartridge.cpuWrite cart addr data = some (cart2, true) →
       cpuWrite b addr data = some { b with cart := some cart2 }) := by
  refine ⟨fun m addr ro => rfl, fun m addr data => rfl, ?_, ?_⟩
  · intro b cart addr d ro h1 h2
    simp [cpuRead, h1, h2]
  · intro b cart cart2 addr data h1 h2
    simp [cpuWrite, h1, h2]

/-- Witness for claim C10: on the fresh bus the read at address 0 faults;
on the same bus with a one-bank cartridge inserted, the read at 0x8000
is answered by the cartridge. -/
theorem c10_cartridge_first_witness :
    cpuRead (newBus ⟨mgnes.zeroCPU, fun _ => 0⟩) 0 false = none ∧
    cpuRead tinyBus 0x8000 false = some 42 :=
  ⟨c10_cartridge_first.1 ⟨mgnes.zeroCPU, fun _ => 0⟩ 0 false,
    c10_cartridge_first.2.2.1 tinyBus cartridge.tinyCart 0x8000 42 false rfl (by decide)⟩

end bus

namespace mgnes

/-- The Clock body is exactly the staged fetch-decode-execute step when
the cycle counter is zero, followed in every call by the counting tick. -/
theorem clock_staged (m : Machine) :
    clock m = if m.cpu.cycles = 0 then stageTick (fetchDecodeExecute m) else stageTick m := by
  by_cases h : m.cpu.cycles = 0
  · rw [if_pos h]
    unfold clock
    rw [if_pos h]
    rfl
  · rw [if_neg h]
    unfold clock
    rw [if_neg h]
    rfl

/-- Claim C3: when Clock runs with the remaining-cycle counter at zero it
performs one full fetch-decode-execute step in the order: read the
opcode byte at PC, force the Unused flag, increment PC, load the base
cycle count of the looked-up instruction, run the addressing-mode
resolver, run the operation, and add the bitwise and of the two
extra-cycle signals to the cycle counter; every call then counts the
clock and decrements the cycle counter by one at the end. -/
theorem c3_clock_fetch_decode_execute (m : Machine) :
    clock m = if m.cpu.cycles = 0 then stageTick (fetchDecodeExecute m) else stageTick m :=
  clock_staged m

/-- Bit 5 of the Unused mask itself. -/
theorem testBit32_5 : Nat.testBit 32 5 = true := by decide

/-- Bit 5 of the InterruptDisable mask. -/
theorem testBit4_5 : Nat.testBit 4 5 = false := by decide

/-- Clock keeps the Unused bit set: a fetch-decode-execute step forces it
at the end, and a counting tick does not touch the status register. -/
theorem clock_unused (m : Machine) (h : m.cpu.FLAG.testBit 5 = true) :
    (clock m).cpu.FLAG.testBit 5 = true := by
  rw [clock_staged]
  split
  · show (stageTick (fetchDecodeExecute m)).cpu.FLAG.testBit 5 = true
    simp only [stageTick, fetchDecodeExecute, stageForceUnused, setFlag, FlagUnused, if_true]
    exact testBit5_or32 _
  · exact h

set_option maxRecDepth 40000 in
/-- IRQ keeps the Unused bit set: it either returns immediately or forces
Unused while pushing the status register. -/
theorem irq_unused (m : Machine) (h : m.cpu.FLAG.testBit 5 = true) :
    (irq m).cpu.FLAG.testBit 5 = true := by
  unfold irq
  split
  · exact h
  · simp only [push, pushPC, write, setFlag, FlagBreak, FlagUnused, FlagInterrupt,
      if_true, if_false]
    simp [Nat.testBit_or, testBit32_5, testBit4_5]

set_option maxRecDepth 40000 in
/-- NMI keeps the Unused bit set. -/
theorem nmi_unused (m : Machine) (h : m.cpu.FLAG.testBit 5 = true) :
    (nmi m).cpu.FLAG.testBit 5 = true := by
  unfold nmi
  simp only [push, pushPC, write, setFlag, FlagBreak, FlagUnused, FlagInterrupt,
    if_true, if_false]
  simp [Nat.testBit_or, testBit32_5, testBit4_5]

/-- Reset leaves the status register with exactly the Unused bit. -/
theorem reset_unused (m : Machine) : ((reset m).cpu.FLAG).testBit 5 = true := by
  have h : (reset m).cpu.FLAG = 32 := Nat.zero_or 32
  rw [h]
  decide

/-- Every public operation keeps the Unused bit set. -/
theorem applyExt_unused (o : ExtOp) (m : Machine) (h : m.cpu.FLAG.testBit 5 = true) :
    ((applyExt o m).cpu.FLAG).testBit 5 = true := by
  cases o
  · exact clock_unused m h
  · exact irq_unused m h
  · exact nmi_unused m h
  · exact reset_unused m

/-- Claim C6: starting from the state established by Reset, after every
finite sequence of the public operations Clock, IRQ, NMI and Reset, the
Unused bit (0x20) of the status register reads 1. -/
theorem c6_unused_flag_invariant (l : List ExtOp) (m : Machine) :
    getFlag ((runExt l (reset m)).cpu) FlagUnused = 1 := by
  rw [getFlag_unused_iff]
  have main : ∀ (l2 : List ExtOp) (m2 : Machine), m2.cpu.FLAG.testBit 5 = true →
      ((runExt l2 m2).cpu.FLAG).testBit 5 = true := by
    intro l2
    induction l2 with
    | nil => intro m2 h; exact h
    | cons o rest ih =>
      intro m2 h
      exact ih _ (applyExt_unused o m2 h)
  exact main l _ (reset_unused m)

end mgnes

namespace mgnes

set_option maxRecDepth 40000 in
/-- The extra-cycle signal returned by an operation function is the
constant recorded in `opRet`. -/
theorem opRun_snd (o : Op) (m : Machine) : (opRun o m).2 = opRet o m.cpu.opcode := by
  cases o <;> rfl

set_option maxRecDepth 100000 in
set_option maxHeartbeats 3200000 in
/-- No operation other than the eight conditional branches writes the
remaining-cycle counter. -/
theorem opRun_cycles (o : Op) (m : Machine) (h : isBranch o = false) :
    ((opRun o m).1).cpu.cycles = m.cpu.cycles := by
  cases o <;> first
    | (exact absurd h (by decide))
    | (dsimp only [opRun, opADC, opAND, opASL, opBIT, opBRK, opCLC, opCLD, opCLI, opCLV,
        opCMP, opCPX, opCPY, opDEC, opDEX, opDEY, opEOR, opINC, opINX, opINY, opJMP,
        opJSR, opLDA, opLDX, opLDY, opLSR, opNOP, opORA, opPHA, opPHP, opPLA, opPLP,
        opROL, opROR, opRTI, opRTS, opSBC, opSEC, opSED, opSEI, opSTA, opSTX, opSTY,
        opTAX, opTAY, opTSX, opTXA, opTXS, opTYA, opXXX,
        fetch, setFlag, push, pop, pushPC, popPC, write]
       repeat' split
       all_goals rfl)

/-- The absolute+X resolver does not touch the cycle counter. -/
theorem amABX_cycles (m : Machine) : ((amABX m).1).cpu.cycles = m.cpu.cycles := rfl

/-- The absolute+Y resolver does not touch the cycle counter. -/
theorem amABY_cycles (m : Machine) : ((amABY m).1).cpu.cycles = m.cpu.cycles := rfl

/-- The absolute+X resolver does not touch the opcode register. -/
theorem amABX_opcode (m : Machine) : ((amABX m).1).cpu.opcode = m.cpu.opcode := rfl

/-- The absolute+Y resolver does not touch the opcode register. -/
theorem amABY_opcode (m : Machine) : ((amABY m).1).cpu.opcode = m.cpu.opcode := rfl

/-- The absolute+X extra-cycle signal is zero or one. -/
theorem amABX_snd_le (m : Machine) : (amABX m).2 ≤ 1 := by
  unfold amABX
  dsimp only
  split <;> decide

/-- The absolute+Y extra-cycle signal is zero or one. -/
theorem amABY_snd_le (m : Machine) : (amABY m).2 ≤ 1 := by
  unfold amABY
  dsimp only
  split <;> decide

/-- `u8` is the identity below 256. -/
theorem u8_of_lt {n : Nat} (h : n < 256) : u8 n = n := Nat.mod_eq_of_lt h

set_option maxRecDepth 10000 in
/-- Every base cycle count in the table lies between 1 and 8. -/
theorem lookup_cycles_bound : ∀ n, n < 256 → 1 ≤ (lookup n).cycles ∧ (lookup n).cycles ≤ 8 := by
  decide

set_option maxRecDepth 10000 in
/-- No absolute+X or absolute+Y table entry carries a branch operation. -/
theorem lookup_ab_not_branch : ∀ n, n < 256 →
    ((lookup n).am = AddrMode.ABX ∨ (lookup n).am = AddrMode.ABY) →
    isBranch (lookup n).op = false := by
  decide

/-- The pre-resolve stage leaves the fetched opcode in the opcode
register. -/
theorem preResolve_opcode (m : Machine) :
    (preResolveState m).cpu.opcode = read m m.cpu.PC := rfl

/-- The pre-resolve stage leaves the base cycle count in the cycle
counter. -/
theorem preResolve_cycles (m : Machine) :
    (preResolveState m).cpu.cycles = (lookup (read m m.cpu.PC)).cycles := rfl

set_option maxRecDepth 10000 in
/-- Counterexample for claim C2 as stated: STA absolute+X (opcode 0x9D,
base cycle count 5) resolves an address that crosses a page boundary
(the resolver signal is 1), yet the total cycle cost of the instruction
is 5, not 6, because the store operation returns 0 and Clock takes the
bitwise and of the two signals. -/
theorem c2_page_cross_not_charged :
    (lookup (read staAbxMachine staAbxMachine.cpu.PC)).am = AddrMode.ABX ∧
    (amRun (lookup (read staAbxMachine staAbxMachine.cpu.PC)).am
        (preResolveState staAbxMachine)).2 = 1 ∧
    (lookup (read staAbxMachine staAbxMachine.cpu.PC)).cycles = 5 ∧
    (clock staAbxMachine).cpu.cycles + 1 = 5 := by decide

set_option maxRecDepth 100000 in
set_option maxHeartbeats 1600000 in
/-- Claim C2 as amended: for every instruction using absolute+X or
absolute+Y addressing, the total cycle cost equals the base count plus
the bitwise and of the resolver page-crossing signal and the constant
extra-cycle signal of the operation: one extra cycle exactly when the
resolver reports a crossing and the operation is one of those that
return the extra-cycle signal, never otherwise. -/
theorem c2_extra_cycle_and_rule (m : Machine) (h0 : m.cpu.cycles = 0)
    (hmode : (lookup (read m m.cpu.PC)).am = AddrMode.ABX ∨
      (lookup (read m m.cpu.PC)).am = AddrMode.ABY) :
    (clock m).cpu.cycles + 1
      = (lookup (read m m.cpu.PC)).cycles
        + ((amRun (lookup (read m m.cpu.PC)).am (preResolveState m)).2
            &&& opRet (lookup (read m m.cpu.PC)).op (read m m.cpu.PC)) := by
  have holt : read m m.cpu.PC < 256 := read_lt m m.cpu.PC
  obtain ⟨hc1, hc8⟩ := lookup_cycles_bound (read m m.cpu.PC) holt
  have hnb : isBranch (lookup (read m m.cpu.PC)).op = false :=
    lookup_ab_not_branch (read m m.cpu.PC) holt hmode
  have hr1 : ((stageResolveExecute (preResolveState m)).1).cpu.cycles
      = (lookup (read m m.cpu.PC)).cycles := by
    show ((opRun (lookup (preResolveState m).cpu.opcode).op
        (amRun (lookup (preResolveState m).cpu.opcode).am (preResolveState m)).1).1).cpu.cycles = _
    rw [preResolve_opcode]
    rw [opRun_cycles _ _ hnb]
    rcases hmode with hm | hm <;> rw [hm]
    · rw [show amRun AddrMode.ABX = amABX from rfl, amABX_cycles, preResolve_cycles]
    · rw [show amRun AddrMode.ABY = amABY from rfl, amABY_cycles, preResolve_cycles]
  have hr2 : (stageResolveExecute (preResolveState m)).2.2
      = opRet (lookup (read m m.cpu.PC)).op (read m m.cpu.PC) := by
    show (opRun (lookup (preResolveState m).cpu.opcode).op
        (amRun (lookup (preResolveState m).cpu.opcode).am (preResolveState m)).1).2 = _
    rw [preResolve_opcode]
    rw [opRun_snd]
    rcases hmode with hm | hm <;> rw [hm]
    · rw [show amRun AddrMode.ABX = amABX from rfl, amABX_opcode, preResolve_opcode]
    · rw [show amRun AddrMode.ABY = amABY from rfl, amABY_opcode, preResolve_opcode]
  have hr3 : (stageResolveExecute (preResolveState m)).2.1
      = (amRun (lookup (read m m.cpu.PC)).am (preResolveState m)).2 := rfl
  have hsle : (amRun (lookup (read m m.cpu.PC)).am (preResolveState m)).2 ≤ 1 := by
    rcases hmode with hm | hm <;> rw [hm]
    · exact amABX_snd_le _
    · exact amABY_snd_le _
  have hse : (amRun (lookup (read m m.cpu.PC)).am (preResolveState m)).2
      &&& opRet (lookup (read m m.cpu.PC)).op (read m m.cpu.PC) ≤ 1 :=
    le_trans Nat.and_le_left hsle
  have hfdx : (fetchDecodeExecute m).cpu.cycles
      = u8 ((lookup (read m m.cpu.PC)).cycles
          + ((amRun (lookup (read m m.cpu.PC)).am (preResolveState m)).2
              &&& opRet (lookup (read m m.cpu.PC)).op (read m m.cpu.PC))) := by
    show u8 (((stageResolveExecute (preResolveState m)).1).cpu.cycles
        + ((stageResolveExecute (preResolveState m)).2.1
            &&& (stageResolveExecute (preResolveState m)).2.2)) = _
    rw [hr1, hr2, hr3]
  rw [clock_staged, if_pos h0]
  show dec8 ((fetchDecodeExecute m).cpu.cycles) + 1 = _
  rw [hfdx, u8_of_lt (by omega)]
  rw [dec8_small _ (by omega) (by omega)]
  omega

set_option maxRecDepth 10000 in
/-- Witness for claim C2 as amended: AND absolute+X (opcode 0x3D) with a
page-crossing operand, evaluated concretely. -/
theorem c2_extra_cycle_and_rule_witness :
    (clock andAbxMachine).cpu.cycles + 1
      = (lookup (read andAbxMachine andAbxMachine.cpu.PC)).cycles
        + ((amRun (lookup (read andAbxMachine andAbxMachine.cpu.PC)).am
              (preResolveState andAbxMachine)).2
            &&& opRet (lookup (read andAbxMachine andAbxMachine.cpu.PC)).op
              (read andAbxMachine andAbxMachine.cpu.PC)) :=
  c2_extra_cycle_and_rule andAbxMachine rfl (Or.inl (by decide))

end mgnes
